import Mathlib

/-!
# Verification of the JARVIX goal-directed task execution engine

Shallow embedding of the core of the `jarvix` repository (goal planner,
keyword matcher, action executor dispatch, agent state manager and the
browser-agent orchestrator), together with proofs and refutations of the
behavioural properties stated in the specification.

Modelling conventions:
* Python strings are Lean `String`s; every Python `str` method used by the
  code (`lower`, `strip`, `replace`, `split`, `startswith`, `in`, slicing)
  is re-implemented below by structural recursion on the character list so
  that all definitions are executable and kernel-reducible.  The inputs the
  engine handles are ASCII, and the re-implementations agree with Python on
  ASCII data.
* Python dicts are association lists with first-occurrence lookup and
  insertion-order preserving update, matching CPython semantics.
* Wall-clock readings (`datetime.now()`, `time.time()`) are opaque inputs:
  timestamps are strings supplied by the environment, elapsed seconds are
  rationals.
* The external browser driver (Playwright) is a black box: the outcome of
  each low-level browser operation is an oracle supplied to the model.
* Python regular-expression searches are an oracle (`RegexOracle`): the
  engine code under verification passes pattern and subject strings to
  `re.search`; the model records exactly which subject string is passed.
* Float arithmetic (`completed / total * 100`, `total * 0.8`) is idealized
  to exact rational/integer arithmetic.
-/

set_option maxRecDepth 8192

namespace Jarvix

/-! ## Python string primitives (ASCII) -/

/-- ASCII lowercase of one character, as Python `str.lower` does on ASCII. -/
def lowerChar (c : Char) : Char :=
  if 'A' ≤ c ∧ c ≤ 'Z' then Char.ofNat (c.toNat + 32) else c

/-- Python `s.lower()` (ASCII fragment). -/
def pyLower (s : String) : String := ⟨s.data.map lowerChar⟩

/-- Characters Python `str.strip()` removes (the ASCII whitespace we need). -/
def isStripChar (c : Char) : Bool :=
  c = ' ' || c = '\t' || c = '\n' || c = '\r'

/-- Python `s.strip()` (ASCII whitespace). -/
def pyStrip (s : String) : String :=
  ⟨(s.data.dropWhile isStripChar).reverse.dropWhile isStripChar |>.reverse⟩

/-- List-level prefix test. -/
def isPrefixL : List Char → List Char → Bool
  | [], _ => true
  | _ :: _, [] => false
  | a :: as, b :: bs => a == b && isPrefixL as bs

/-- Python `s.startswith(p)`. -/
def pyStartswith (s p : String) : Bool := isPrefixL p.data s.data

/-- List-level substring test (`pat` occurs somewhere in `s`). -/
def containsL (pat : List Char) : List Char → Bool
  | [] => isPrefixL pat []
  | c :: rest => isPrefixL pat (c :: rest) || containsL pat rest

/-- Python `pat in s`. -/
def pyIn (pat s : String) : Bool := containsL pat.data s.data

/-- First index at which `pat` occurs in `s`, if any. -/
def findSubL (pat : List Char) : List Char → Option Nat
  | [] => if isPrefixL pat [] then some 0 else none
  | c :: rest =>
    if isPrefixL pat (c :: rest) then some 0
    else (findSubL pat rest).map (· + 1)

/-- List-level replace-all (left to right, non-overlapping), Python
`s.replace(pat, rep)` for non-empty `pat`.  The first argument is fuel
(any value at least the subject length gives Python semantics); fuel makes
the recursion structural, hence kernel-executable. -/
def replaceLF (pat rep : List Char) : Nat → List Char → List Char
  | _, [] => []
  | 0, s => s
  | fuel + 1, c :: rest =>
    if isPrefixL pat (c :: rest) && !pat.isEmpty then
      rep ++ replaceLF pat rep fuel ((c :: rest).drop pat.length)
    else
      c :: replaceLF pat rep fuel rest

/-- Python `s.replace(pat, rep)` (no-op for empty `pat`, which the engine
never uses). -/
def pyReplace (s pat rep : String) : String :=
  if pat.data = [] then s else ⟨replaceLF pat.data rep.data s.data.length s.data⟩

/-- List-level split on a non-empty separator, Python `s.split(sep)`
(fuelled, structural). -/
def splitOnLF (sep : List Char) : Nat → List Char → List (List Char)
  | _, [] => [[]]
  | 0, s => [s]
  | fuel + 1, c :: rest =>
    if isPrefixL sep (c :: rest) && !sep.isEmpty then
      [] :: splitOnLF sep fuel ((c :: rest).drop sep.length)
    else
      match splitOnLF sep fuel rest with
      | [] => [[c]]
      | piece :: pieces => (c :: piece) :: pieces

/-- Python `s.split(sep)` for non-empty `sep`. -/
def pySplitOn (s sep : String) : List String :=
  (splitOnLF sep.data s.data.length s.data).map (fun l => ⟨l⟩)

/-- Python slice `s[n:]` (character based; inputs are ASCII). -/
def pyDrop (n : Nat) (s : String) : String := ⟨s.data.drop n⟩

/-- Python slice `s[:n]`. -/
def pyTake (n : Nat) (s : String) : String := ⟨s.data.take n⟩

/-- Python `s.split(pat, 1)[-1]`: everything after the first occurrence of
`pat`, or `s` itself when `pat` does not occur. -/
def afterFirst (s pat : String) : String :=
  match findSubL pat.data s.data with
  | some i => ⟨s.data.drop (i + pat.length)⟩
  | none => s

/-- One decimal digit as a character. -/
def digitChar (n : Nat) : Char := Char.ofNat (48 + n)

/-- Decimal digits of `n` (fuelled, structural). -/
def natReprAux : Nat → Nat → List Char
  | 0, _ => []
  | fuel + 1, n =>
    if n < 10 then [digitChar n]
    else natReprAux fuel (n / 10) ++ [digitChar (n % 10)]

/-- Decimal rendering of a natural number, as Python `str(n)`. -/
def natRepr (n : Nat) : String := ⟨natReprAux (n + 1) n⟩

/-- Python `int(s)` restricted to decimal digit strings (used only on the
`$N` capture-group indices of the action templates); non-digit input
defaults to 0. -/
def parseNatD (s : String) : Nat :=
  s.data.foldl (fun acc c => if '0' ≤ c ∧ c ≤ '9' then acc * 10 + (c.toNat - 48) else acc) 0

/-- `\w` word characters of Python `re` (ASCII fragment). -/
def isWordChar (c : Char) : Bool := c.isAlphanum || c = '_'

/-- Whether `re.search(r"\b" + w + r"\b", s)` finds a match: `w` occurs in
`s` with non-word characters (or the string ends) on both sides.
`prevWord` records whether the character before the current position is a
word character. -/
def containsWordAux (w : List Char) (prevWord : Bool) : List Char → Bool
  | [] => false
  | c :: rest =>
    (!prevWord && isPrefixL w (c :: rest) &&
      (match ((c :: rest).drop w.length).head? with
       | none => true
       | some d => !isWordChar d)) ||
    containsWordAux w (isWordChar c) rest

/-- Python `re.search(rf"\b{w}\b", s) is not None` for a non-empty word
pattern `w` without metacharacters. -/
def containsWord (w s : String) : Bool :=
  w.data ≠ [] && containsWordAux w.data false s.data

/-- Python `re.sub(rf"\b{w}\b", rep, s)` for a non-empty word pattern `w`
without metacharacters: replace every word-bounded occurrence, scanning
left to right over the original string (fuelled, structural). -/
def subWordAllAux (w rep : List Char) : Nat → Bool → List Char → List Char
  | _, _, [] => []
  | 0, _, s => s
  | fuel + 1, prevWord, c :: rest =>
    if !prevWord && (isPrefixL w (c :: rest) && !w.isEmpty) &&
        (match ((c :: rest).drop w.length).head? with
         | none => true
         | some d => !isWordChar d) then
      rep ++ subWordAllAux w rep fuel (isWordChar (w.getLastD c)) ((c :: rest).drop w.length)
    else
      c :: subWordAllAux w rep fuel (isWordChar c) rest

/-- Python `re.sub(rf"\b{w}\b", rep, s)` (word-bounded replace-all). -/
def subWordAll (w rep s : String) : String :=
  if w.data = [] then s else ⟨subWordAllAux w.data rep.data s.data.length false s.data⟩

/-- `", ".join(l)` and friends. -/
def joinSep (sep : String) : List String → String
  | [] => ""
  | [x] => x
  | x :: xs => x ++ sep ++ joinSep sep xs

/-! ## Python dict primitives (association lists, insertion ordered) -/

/-- Python `d.get(k)`: first binding of `k`. -/
def dictGet? {α : Type} (d : List (String × α)) (k : String) : Option α :=
  (d.find? (fun kv => kv.1 = k)).map (·.2)

/-- Python `d.get(k, dflt)`. -/
def dictGetD {α : Type} (d : List (String × α)) (k : String) (dflt : α) : α :=
  (dictGet? d k).getD dflt

/-- Python `d[k] = v`: replace in place if the key exists (CPython keeps the
original position), else append. -/
def dictSet {α : Type} (d : List (String × α)) (k : String) (v : α) : List (String × α) :=
  if (d.find? (fun kv => kv.1 = k)).isSome then
    d.map (fun kv => if kv.1 = k then (k, v) else kv)
  else
    d ++ [(k, v)]

/-- `trigger_index[t].append(cmd)` with dict-of-lists semantics:
append `v` to the list at key `k`, creating the key at the end if absent. -/
def dictAppend (d : List (String × List String)) (k : String) (v : String) :
    List (String × List String) :=
  if (d.find? (fun kv => kv.1 = k)).isSome then
    d.map (fun kv => if kv.1 = k then (kv.1, kv.2 ++ [v]) else kv)
  else
    d ++ [(k, [v])]

/-- Update the element at position `i` (no-op out of bounds), the effect of
a guarded in-place mutation of `self.steps[index]`. -/
def updateAt {α : Type} (f : α → α) : Nat → List α → List α
  | _, [] => []
  | 0, x :: xs => f x :: xs
  | i + 1, x :: xs => x :: updateAt f i xs

/-- A parameter / data value: the engine stores strings and small integers
in its parameter dicts. -/
inductive PVal where
  | s (v : String)
  | n (v : Nat)
deriving DecidableEq, Repr

/-- Python `f"{v}"` on a parameter value. -/
def PVal.toStr : PVal → String
  | .s v => v
  | .n v => natRepr v

/-- Parameter dictionaries of action steps and results. -/
abbrev Params := List (String × PVal)

/-! ## State manager (`jarvix/core/state_manager.py`) -/

/-- `StepStatus` enum. -/
inductive StepStatus where
  | pending
  | running
  | success
  | failed
  | retrying
  | skipped
deriving DecidableEq, Repr

/-- `StepRecord`: record of a single step execution. -/
structure StepRecord where
  step_index : Nat
  action : String
  params : Params
  status : StepStatus := .pending
  error : String := ""
  result_data : Params := []
  screenshot : String := ""
  retry_count : Nat := 0
  duration_ms : ℚ := 0
  timestamp : String := ""
deriving DecidableEq, Repr

/-- `AgentState`: complete state of the browser agent. -/
structure AgentState where
  goal : String := ""
  total_steps : Nat := 0
  current_step : Nat := 0
  status : String := "idle"
  current_url : String := ""
  last_screenshot : String := ""
  steps : List StepRecord := []
  extracted_data : Params := []
  screenshots : List String := []
  errors : List String := []
  total_retries : Nat := 0
  start_time : String := ""
  end_time : String := ""
deriving DecidableEq, Repr

namespace AgentState

/-- `reset(goal)`: every field is re-initialized; `now` is the opaque
wall-clock reading taken for `start_time`. -/
def reset (_st : AgentState) (goal : String) (now : String) : AgentState :=
  { goal := goal
    total_steps := 0
    current_step := 0
    status := "planning"
    current_url := ""
    last_screenshot := ""
    steps := []
    extracted_data := []
    screenshots := []
    errors := []
    total_retries := 0
    start_time := now
    end_time := "" }

/-- Helper for `set_plan`'s `enumerate`: build the fresh `StepRecord`s with
consecutive indices starting at `i`. -/
def mkRecords (i : Nat) : List (String × Params) → List StepRecord
  | [] => []
  | (action, params) :: rest =>
    { step_index := i, action := action, params := params } :: mkRecords (i + 1) rest

/-- `set_plan(steps)`: the plan is a list of `(action, params)` dicts. -/
def set_plan (st : AgentState) (plan : List (String × Params)) : AgentState :=
  { st with
    total_steps := plan.length
    status := "executing"
    steps := st.steps ++ mkRecords 0 plan }

/-- `start_step(index)`; `ts` is the `datetime.now().isoformat()` reading. -/
def start_step (st : AgentState) (index : Nat) (ts : String) : AgentState :=
  if index < st.steps.length then
    { st with
      steps := updateAt (fun r => { r with status := .running, timestamp := ts }) index st.steps
      current_step := index }
  else st

/-- Keys excluded from `extracted_data` accumulation. -/
def transientKeys : List String := ["path", "waited_ms", "typed", "key"]

/-- `complete_step(index, success, error, data, screenshot, duration_ms)`. -/
def complete_step (st : AgentState) (index : Nat) (success : Bool)
    (error : String) (data : Params) (screenshot : String) (duration_ms : ℚ) :
    AgentState :=
  if index < st.steps.length then
    { st with
      steps := updateAt
        (fun r => { r with
          status := if success then .success else .failed
          error := error
          result_data := data
          screenshot := screenshot
          duration_ms := duration_ms }) index st.steps
      extracted_data := data.foldl
        (fun acc kv =>
          if transientKeys.contains kv.1 then acc else dictSet acc kv.1 kv.2)
        st.extracted_data
      screenshots := if screenshot ≠ "" then st.screenshots ++ [screenshot] else st.screenshots
      last_screenshot := if screenshot ≠ "" then screenshot else st.last_screenshot
      errors := if error ≠ "" then st.errors ++ ["Step " ++ natRepr index ++ ": " ++ error]
                else st.errors }
  else st

/-- `retry_step(index)`. -/
def retry_step (st : AgentState) (index : Nat) : AgentState :=
  if index < st.steps.length then
    { st with
      steps := updateAt
        (fun r => { r with status := .retrying, retry_count := r.retry_count + 1 })
        index st.steps
      total_retries := st.total_retries + 1 }
  else st

/-- `skip_step(index, reason)`. -/
def skip_step (st : AgentState) (index : Nat) (reason : String) : AgentState :=
  if index < st.steps.length then
    { st with
      steps := updateAt (fun r => { r with status := .skipped, error := reason })
        index st.steps }
  else st

/-- `finish(success)`; `now` is the wall-clock reading for `end_time`. -/
def finish (st : AgentState) (success : Bool) (now : String) : AgentState :=
  { st with status := if success then "success" else "failed", end_time := now }

/-- `update_url(url)`. -/
def update_url (st : AgentState) (url : String) : AgentState :=
  { st with current_url := url }

/-- Return value of `get_progress()`. -/
structure Progress where
  current : Nat
  total : Nat
  completed : Nat
  failed : Nat
  percent : Nat
deriving DecidableEq, Repr

/-- `get_progress()`.  Python computes `int(completed / total * 100)` with
float division; this is idealized to exact integer floor division. -/
def get_progress (st : AgentState) : Progress :=
  let completed := st.steps.countP (fun s => s.status = .success || s.status = .skipped)
  let failed := st.steps.countP (fun s => s.status = .failed)
  { current := st.current_step + 1
    total := st.total_steps
    completed := completed
    failed := failed
    percent := if st.total_steps > 0 then completed * 100 / st.total_steps else 0 }

end AgentState

/-- The operations a client can perform on an `AgentState`, for stating
invariants over arbitrary operation sequences. -/
inductive AgentOp where
  | reset (goal now : String)
  | set_plan (plan : List (String × Params))
  | start_step (index : Nat) (ts : String)
  | complete_step (index : Nat) (success : Bool) (error : String)
      (data : Params) (screenshot : String) (duration_ms : ℚ)
  | retry_step (index : Nat)
  | skip_step (index : Nat) (reason : String)
  | finish (success : Bool) (now : String)
  | update_url (url : String)

/-- Apply one operation. -/
def AgentOp.apply (st : AgentState) : AgentOp → AgentState
  | .reset goal now => st.reset goal now
  | .set_plan plan => st.set_plan plan
  | .start_step i ts => st.start_step i ts
  | .complete_step i ok err data shot dur => st.complete_step i ok err data shot dur
  | .retry_step i => st.retry_step i
  | .skip_step i reason => st.skip_step i reason
  | .finish ok now => st.finish ok now
  | .update_url url => st.update_url url

/-- Apply a sequence of operations. -/
def applyOps (st : AgentState) (ops : List AgentOp) : AgentState :=
  ops.foldl AgentOp.apply st

/-! ## BrowserContext (`jarvix/core/state_manager.py`) -/

/-- `BrowserContext`: cross-execution session context.  `last_action_time`
is an absolute wall-clock instant in seconds (rational). -/
structure BrowserContext where
  is_open : Bool := false
  current_url : String := ""
  current_domain : String := ""
  last_goal : String := ""
  last_action : String := ""
  last_action_time : Option ℚ := none
  last_screenshot : String := ""
  extracted_data : Params := []
deriving DecidableEq, Repr

namespace BrowserContext

/-- `CONTEXT_TIMEOUT_SECONDS = 300`. -/
def contextTimeoutSeconds : ℚ := 300

/-- `update(...)`; `now` is the wall-clock instant, `netlocOf` models
`urlparse(url).netloc` (performed by the external `urllib`). -/
def update (ctx : BrowserContext) (now : ℚ) (netlocOf : String → String)
    (url goal action screenshot : String) (data : Params) : BrowserContext :=
  let ctx := { ctx with is_open := true, last_action_time := some now }
  let ctx := if url ≠ "" then
    { ctx with
      current_url := url
      current_domain := pyReplace (netlocOf url) "www." "" } else ctx
  let ctx := if goal ≠ "" then { ctx with last_goal := goal } else ctx
  let ctx := if action ≠ "" then { ctx with last_action := action } else ctx
  let ctx := if screenshot ≠ "" then { ctx with last_screenshot := screenshot } else ctx
  let ctx := data.foldl (fun c kv => { c with extracted_data := dictSet c.extracted_data kv.1 kv.2 }) ctx
  ctx

/-- `is_active()` evaluated at wall-clock instant `now`. -/
def is_active (ctx : BrowserContext) (now : ℚ) : Bool :=
  if !ctx.is_open then false
  else
    match ctx.last_action_time with
    | none => false
    | some t => decide (now - t < contextTimeoutSeconds)

/-- `mark_closed()`. -/
def mark_closed (ctx : BrowserContext) : BrowserContext :=
  { ctx with is_open := false }

end BrowserContext

/-! ## Goal planner (`jarvix/core/goal_planner.py`) -/

/-- `ActionStep`: single action step in a plan. -/
structure ActionStep where
  action : String
  params : Params := []
  description : String := ""
  retry_count : Nat := 0
  max_retries : Nat := 3
deriving DecidableEq, Repr

/-- A value of the plan `context` dict (strings, or the list of sites of a
multi-site comparison). -/
inductive CtxVal where
  | str (v : String)
  | strList (v : List String)
deriving DecidableEq, Repr

/-- `ActionPlan`: complete action plan for a goal. -/
structure ActionPlan where
  goal : String
  steps : List ActionStep := []
  context : List (String × CtxVal) := []
  estimated_time : Nat := 0
deriving DecidableEq, Repr

/-- One entry of `SITE_SEARCH_CONFIG`.  The first three keys are present in
every entry; the shopping-helper keys only for shopping domains. -/
structure SiteConfig where
  search_selector : String
  submit_selector : Option String
  results_selector : String
  product_link_selector : Option String := none
  product_price_selector : Option String := none
  product_title_selector : Option String := none
  product_rating_selector : Option String := none
deriving DecidableEq, Repr

/-- `SITE_SEARCH_CONFIG`. -/
def siteSearchConfig : List (String × SiteConfig) := [
  ("youtube.com",
    { search_selector := "input#search, input[name=\x27search_query\x27]"
      submit_selector := none
      results_selector := "ytd-video-renderer, ytd-rich-item-renderer" }),
  ("amazon.in",
    { search_selector := "#twotabsearchtextbox"
      submit_selector := some "#nav-search-submit-button"
      results_selector := "[data-component-type=\x27s-search-result\x27]"
      product_link_selector := some "[data-component-type=\x27s-search-result\x27] h2 a, .s-result-item h2 a"
      product_price_selector := some ".a-price .a-offscreen, .a-price-whole, #priceblock_ourprice, #priceblock_dealprice"
      product_title_selector := some "#productTitle, .product-title"
      product_rating_selector := some ".a-icon-alt" }),
  ("amazon.com",
    { search_selector := "#twotabsearchtextbox"
      submit_selector := some "#nav-search-submit-button"
      results_selector := "[data-component-type=\x27s-search-result\x27]"
      product_link_selector := some "[data-component-type=\x27s-search-result\x27] h2 a, .s-result-item h2 a"
      product_price_selector := some ".a-price .a-offscreen, .a-price-whole, #priceblock_ourprice, #priceblock_dealprice"
      product_title_selector := some "#productTitle, .product-title"
      product_rating_selector := some ".a-icon-alt" }),
  ("google.com",
    { search_selector := "textarea[name=\x27q\x27], input[name=\x27q\x27]"
      submit_selector := none
      results_selector := "#search .g" }),
  ("flipkart.com",
    { search_selector := "input[name=\x27q\x27], input._3704LK"
      submit_selector := some "button[type=\x27submit\x27], button._2iLD__"
      results_selector := "div._1AtVbE, div._4ddWXP"
      product_link_selector := some "div._1AtVbE a, div._4ddWXP a"
      product_price_selector := some "div._30jeq3"
      product_title_selector := some "span.B_NuCI"
      product_rating_selector := some "div._3LWZlK" }),
  ("github.com",
    { search_selector := "input[name=\x27q\x27]"
      submit_selector := none
      results_selector := ".repo-list-item, .Box-row" }),
  ("ebay.com",
    { search_selector := "input[aria-label*=\x27Search\x27 i], input[type=\x27text\x27][name=\x27_nkw\x27]"
      submit_selector := some "input[type=\x27submit\x27][value*=\x27Search\x27 i], button[aria-label*=\x27Search\x27 i]"
      results_selector := "li.s-item"
      product_link_selector := some "li.s-item a.s-item__link"
      product_price_selector := some ".s-item__price"
      product_title_selector := some "#itemTitle, .s-item__title"
      product_rating_selector := some ".b-starrating__star, .x-star-rating span.clipped" })]

/-- `SITE_ALIASES`. -/
def siteAliases : List (String × String) := [
  ("youtube", "youtube.com"),
  ("amazon", "amazon.in"),
  ("amazon india", "amazon.in"),
  ("amazon us", "amazon.com"),
  ("flipkart", "flipkart.com"),
  ("google", "google.com"),
  ("github", "github.com"),
  ("ebay", "ebay.com")]

namespace GoalPlanner

/-- `url.replace("https://", "").replace("http://", "").split("/")[0]`. -/
def urlToDomain (url : String) : String :=
  (pySplitOn (pyReplace (pyReplace url "https://" "") "http://" "") "/").headD ""

/-- Domain extraction with `www.` removal, as used by the search / price /
multi-site plan builders. -/
def siteToDomain (site : String) : String :=
  (pySplitOn (pyReplace (pyReplace (pyReplace site "https://" "") "http://" "") "www." "") "/").headD ""

/-- `_create_simple_navigate_plan(url)`. -/
def createSimpleNavigatePlan (url : String) : ActionPlan :=
  let url := if !pyStartswith url "http" then "https://" ++ url else url
  let domain := urlToDomain url
  { goal := "Open " ++ domain
    steps := [
      { action := "navigate", params := [("url", .s url)],
        description := "Open " ++ domain },
      { action := "wait", params := [("ms", .n 500)],
        description := "Wait for page to load" },
      { action := "screenshot",
        params := [("name", .s ("page_" ++ pyReplace domain "." "_"))],
        description := "Capture page" }]
    estimated_time := 3 }

/-- `_create_site_search_plan(site, query)`. -/
def createSiteSearchPlan (site query : String) : ActionPlan :=
  let site := if !pyStartswith site "http" then
      (if !pyStartswith site "www." then "https://www." ++ site else "https://" ++ site)
    else site
  let domain := siteToDomain site
  let config := dictGet? siteSearchConfig domain
  let search_selector := match config with
    | some c => c.search_selector
    | none => "input[type=\x27search\x27], input[name=\x27q\x27], input[name=\x27search\x27]"
  let submit_selector : Option String := match config with
    | some c => c.submit_selector
    | none => none
  let results_selector := match config with
    | some c => c.results_selector
    | none => "main, #content, .results"
  { goal := "Search \x27" ++ query ++ "\x27 on " ++ domain
    steps :=
      [ { action := "navigate", params := [("url", .s site)],
          description := "Open " ++ domain },
        { action := "wait", params := [("ms", .n 500)],
          description := "Wait for page to load" },
        { action := "wait_for",
          params := [("selector", .s search_selector), ("timeout", .n 10000)],
          description := "Wait for search box" },
        { action := "type",
          params := [("selector", .s search_selector), ("text", .s query)],
          description := "Type search query: " ++ query } ] ++
      (match submit_selector with
       | some sel =>
          [{ action := "click", params := [("selector", .s sel)],
             description := "Click search button" }]
       | none =>
          [{ action := "press_key", params := [("key", .s "Enter")],
             description := "Press Enter to search" }]) ++
      [ { action := "wait_for",
          params := [("selector", .s results_selector), ("timeout", .n 10000)],
          description := "Wait for search results" },
        { action := "wait", params := [("ms", .n 300)],
          description := "Let results fully load" },
        { action := "screenshot",
          params := [("name", .s ("search_" ++ pyReplace (pyTake 20 query) " " "_"))],
          description := "Capture search results" } ]
    context := [("site", .str domain), ("query", .str query)] }

/-- `_create_price_check_plan(site, product, prefix)`. -/
def createPriceCheckPlan (site product pfx : String) : ActionPlan :=
  let plan := createSiteSearchPlan site product
  let domain := siteToDomain site
  let config := dictGet? siteSearchConfig domain
  let product_link_selector := match config with
    | some c => c.product_link_selector.getD
        "[data-component-type=\x27s-search-result\x27] h2 a, .s-result-item h2 a"
    | none => "[data-component-type=\x27s-search-result\x27] h2 a, .s-result-item h2 a"
  let price_selector := match config with
    | some c => c.product_price_selector.getD
        ".a-price .a-offscreen, .a-price-whole, #priceblock_ourprice, #priceblock_dealprice"
    | none => ".a-price .a-offscreen, .a-price-whole, #priceblock_ourprice, #priceblock_dealprice"
  let title_selector := match config with
    | some c => c.product_title_selector.getD "#productTitle, .product-title"
    | none => "#productTitle, .product-title"
  let rating_selector := match config with
    | some c => c.product_rating_selector.getD ".a-icon-alt, ._3LWZlK, .x-star-rating span.clipped"
    | none => ".a-icon-alt, ._3LWZlK, .x-star-rating span.clipped"
  let price_key := if pfx ≠ "" then pfx ++ "price" else "price"
  let name_key := if pfx ≠ "" then pfx ++ "product_name" else "product_name"
  let rating_key := if pfx ≠ "" then pfx ++ "rating" else "rating"
  { plan with
    goal := "Find price of \x27" ++ product ++ "\x27 on " ++ domain
    steps := plan.steps ++ [
      { action := "click", params := [("selector", .s product_link_selector)],
        description := "Click first product" },
      { action := "wait_for",
        params := [("selector", .s price_selector), ("timeout", .n 10000)],
        description := "Wait for product page" },
      { action := "extract",
        params := [("selector", .s price_selector), ("attribute", .s "text"),
                   ("save_as", .s price_key)],
        description := "Extract price" },
      { action := "extract",
        params := [("selector", .s title_selector), ("attribute", .s "text"),
                   ("save_as", .s name_key)],
        description := "Extract product name" },
      { action := "extract",
        params := [("selector", .s rating_selector), ("attribute", .s "text"),
                   ("save_as", .s rating_key)],
        description := "Extract rating (if available)" },
      { action := "screenshot", params := [("name", .s "product_price")],
        description := "Capture product page" } ] }

/-- The TLD markers checked by `_create_multi_site_compare_plan`. -/
def tlds : List String := [".com", ".in", ".org", ".net", ".io"]

/-- Normalization of one raw site name inside
`_create_multi_site_compare_plan` (alias mapping, domain extraction,
best-effort default TLD); `none` when the loop `continue`s. -/
def normalizeOneSite (raw : String) : Option String :=
  if raw = "" then none
  else
    let name := pyLower (pyStrip raw)
    if name = "" then none
    else
      let mapped := match dictGet? siteAliases name with
        | some v => v
        | none => (dictGet? siteAliases (pyReplace name ".com" "")).getD name
      let domain := siteToDomain mapped
      let domain := if !(tlds.any (fun t => pyIn t domain)) then domain ++ ".com" else domain
      some domain

/-- The de-duplicated normalized site list of
`_create_multi_site_compare_plan`, including the default fallback. -/
def normalizeSites (sites : List String) : List String :=
  let ns := sites.foldl
    (fun acc raw =>
      match normalizeOneSite raw with
      | none => acc
      | some domain => if acc.contains domain then acc else acc ++ [domain]) []
  if ns = [] then ["amazon.in", "flipkart.com", "ebay.com"] else ns

/-- `domain.split(".")[0] + "_"`: the per-site key marker prepended to the
extract keys of a multi-site comparison. -/
def sitePfx (domain : String) : String := (pySplitOn domain ".").headD "" ++ "_"

/-- `_create_multi_site_compare_plan(product, sites)`. -/
def createMultiSiteComparePlan (product : String) (sites : List String) : ActionPlan :=
  let normalized := normalizeSites sites
  let all_steps := normalized.foldl
    (fun acc domain =>
      acc ++ (createPriceCheckPlan ("https://www." ++ domain) product (sitePfx domain)).steps)
    []
  { goal := "Compare prices for \x27" ++ product ++ "\x27 across " ++ joinSep ", " normalized
    steps := all_steps
    context := [("type", .str "multi_site_compare"), ("product", .str product),
                ("sites", .strList normalized)] }

/-- The outcome of the ordered regex scan of `_pattern_plan`: which intent
pattern fired first, with its captured groups.  The regex engine itself is
external to the model; each constructor carries the raw capture strings and
the dispatch code below performs exactly the post-regex processing of
`_pattern_plan`. -/
inductive PatternIntent where
  | openShortSearch (site query : String)
  | openDomainSearch (site query : String)
  | searchOnSite (query site : String)
  | quickSearch (site query : String)
  | priceCheck (product site : String)
  | multiCompare (product : String) (sitesRaw : Option String)
  | simpleOpen (target : String)
deriving DecidableEq, Repr

/-- The plan `_pattern_plan` builds for each matched intent pattern. -/
def patternPlan : PatternIntent → ActionPlan
  | .openShortSearch site query =>
    createSiteSearchPlan (dictGetD siteAliases site (site ++ ".com")) (pyStrip query)
  | .openDomainSearch site query =>
    createSiteSearchPlan site (pyStrip query)
  | .searchOnSite query site =>
    createSiteSearchPlan site (pyStrip query)
  | .quickSearch site query =>
    createSiteSearchPlan (dictGetD siteAliases site (site ++ ".com")) (pyStrip query)
  | .priceCheck product site =>
    createPriceCheckPlan (site ++ (if pyIn "amazon" site then ".in" else ".com"))
      (pyStrip product) ""
  | .multiCompare product sitesRawOpt =>
    let product := pyStrip product
    let sites_raw := pyStrip (sitesRawOpt.getD "")
    let sites := if sites_raw ≠ "" then
        (pySplitOn (pyReplace sites_raw " and " ",") ",").foldl
          (fun acc part =>
            let name := pyStrip part
            if name = "" then acc
            else acc ++
              [dictGetD siteAliases name (dictGetD siteAliases (pyReplace name ".com" "") name)])
          []
      else []
    let sites := if sites = [] then ["amazon.in", "flipkart.com", "ebay.com"] else sites
    createMultiSiteComparePlan product sites
  | .simpleOpen target =>
    let target := pyStrip target
    let target :=
      if (dictGet? siteAliases target).isSome then dictGetD siteAliases target target
      else if !(([".com", ".in", ".org", ".net", ".io", "http"] : List String).any
          (fun x => pyIn x target)) then
        target ++ ".com"
      else target
    createSimpleNavigatePlan target

end GoalPlanner

/-! ## Action executor (`jarvix/core/action_executor.py`) -/

/-- `ActionResult`: result of executing an action. -/
structure ActionResult where
  success : Bool := false
  action : String := ""
  error : String := ""
  data : Params := []
  screenshot_path : String := ""
  duration_ms : ℚ := 0
deriving DecidableEq, Repr

namespace ActionExecutor

/-- The primitive actions `execute` dispatches on (in dispatch order). -/
def recognizedActions : List String :=
  ["navigate", "click", "type", "press_key", "scroll", "wait_for", "wait",
   "extract", "screenshot", "read_dom"]

/-- `ActionExecutor.execute(action, params)`.  Each `_handler` wraps the
external Playwright driver, so the per-action handlers are an oracle
`handlers : action → params → ActionResult`; the dispatch chain, the
unknown-action failure and the final `result.action = action` assignment
are the executor's own logic.  (Timing and the `ensure_browser` call touch
only the external session.) -/
def execute (handlers : String → Params → ActionResult)
    (action : String) (params : Params) : ActionResult :=
  let result :=
    if action = "navigate" then handlers action params
    else if action = "click" then handlers action params
    else if action = "type" then handlers action params
    else if action = "press_key" then handlers action params
    else if action = "scroll" then handlers action params
    else if action = "wait_for" then handlers action params
    else if action = "wait" then handlers action params
    else if action = "extract" then handlers action params
    else if action = "screenshot" then handlers action params
    else if action = "read_dom" then handlers action params
    else { success := false, error := "Unknown action: " ++ action }
  { result with action := action }

end ActionExecutor

/-! ## Browser agent (`jarvix/agents/browser_agent.py`) -/

/-- `AgentResult`: final result of agent execution.  (`message` and
`duration` are presentation strings; `message` is modelled, the formatted
duration is omitted.) -/
structure AgentResult where
  success : Bool := false
  goal : String := ""
  message : String := ""
  extracted_data : Params := []
  screenshots : List String := []
  steps_completed : Nat := 0
  steps_total : Nat := 0
  errors : List String := []
  final_url : String := ""
deriving DecidableEq, Repr

/-- The environment of one agent execution: the outcomes of the calls the
orchestrator makes into the external world.  `result i a` is what
`ActionExecutor.execute(step.action, step.params)` returns for step `i` on
attempt `a`; `currentUrl i a` is `executor.get_current_url()` observed
after that successful attempt; `finalUrl` is the reading taken while
assembling the `AgentResult`; `timestamp` stands for the wall-clock
strings `datetime.now().isoformat()`. -/
structure ExecEnv where
  result : Nat → Nat → ActionResult
  currentUrl : Nat → Nat → String := fun _ _ => ""
  finalUrl : String := ""
  timestamp : String := ""

namespace BrowserAgent

/-- `self.max_retries = 3`. -/
def maxRetries : Nat := 3

/-- `_is_critical_step`: only navigation aborts the plan. -/
def criticalActions : List String := ["navigate"]

/-- `_is_critical_step(action)`. -/
def isCriticalStep (action : String) : Bool := criticalActions.contains action

/-- The retry loop of `_execute_step_with_retry`, one recursive call per
`for attempt in range(max_retries + 1)` iteration.  Returns the updated
state, whether the step succeeded, and how many times
`ActionExecutor.execute` was invoked for this step. -/
def executeAttempts (env : ExecEnv) (index maxR : Nat) :
    Nat → Nat → AgentState → AgentState × Bool × Nat
  | 0, _, st => (st, false, 0)
  | remaining + 1, attempt, st =>
    let st := if attempt > 0 then st.retry_step index else st
    let st := st.start_step index env.timestamp
    let r := env.result index attempt
    if r.success then
      let st := st.complete_step index true "" r.data r.screenshot_path r.duration_ms
      let url := env.currentUrl index attempt
      let st := if url ≠ "" then st.update_url url else st
      (st, true, 1)
    else
      let st := if attempt == maxR then
          st.complete_step index false r.error [] "" r.duration_ms
        else st
      let out := executeAttempts env index maxR remaining (attempt + 1) st
      (out.1, out.2.1, out.2.2 + 1)

/-- `_execute_step_with_retry(index, step)` (the executor call itself is
factored into `env.result`). -/
def executeStepWithRetry (env : ExecEnv) (index : Nat) (st : AgentState) :
    AgentState × Bool × Nat :=
  executeAttempts env index maxRetries (maxRetries + 1) 0 st

/-- The `for i, step in enumerate(plan.steps)` loop of `execute`, including
the critical-abort `break` and the non-critical skip. -/
def executeSteps (env : ExecEnv) : List ActionStep → Nat → AgentState → AgentState
  | [], _, st => st
  | step :: rest, i, st =>
    let out := executeStepWithRetry env i st
    if out.2.1 then executeSteps env rest (i + 1) out.1
    else if isCriticalStep step.action then (out.1).finish false env.timestamp
    else executeSteps env rest (i + 1) ((out.1).skip_step i "Failed after retries")

/-- `_get_result_message(state)`. -/
def resultMessage (st : AgentState) : String :=
  if st.status = "success" then
    let msg := "✅ Goal completed: " ++ st.goal
    if st.extracted_data ≠ [] then
      msg ++ "\n📊 Data: " ++
        joinSep ", " (st.extracted_data.map (fun kv => kv.1 ++ "=" ++ kv.2.toStr))
    else msg
  else
    let msg := "⚠️ Goal partially completed: " ++ st.goal
    if st.errors ≠ [] then msg ++ "\n❌ Issues: " ++ st.errors.getLastD "" else msg

/-- `BrowserAgent.execute(goal)`.  Planning (`GoalPlanner.plan`) happens
before the loop; the resulting plan is a parameter here so that both
pattern-based and LLM-produced plans are covered.  Returns the final
`AgentState` together with the `AgentResult`. -/
def execute (env : ExecEnv) (goal : String) (plan : ActionPlan) :
    AgentState × AgentResult :=
  let st := AgentState.reset {} goal env.timestamp
  if plan.steps.isEmpty then
    (st, { success := false, goal := goal, message := "Failed to create action plan",
           errors := ["No steps generated for this goal"] })
  else
    let st := st.set_plan (plan.steps.map (fun s => (s.action, s.params)))
    let st := executeSteps env plan.steps 0 st
    let progress := st.get_progress
    let success := (progress.failed == 0) || decide (4 * progress.total ≤ 5 * progress.completed)
    let st := st.finish success env.timestamp
    (st, { success := success
           goal := goal
           message := resultMessage st
           extracted_data := st.extracted_data
           screenshots := st.screenshots
           steps_completed := progress.completed
           steps_total := progress.total
           errors := st.errors
           final_url := env.finalUrl })

end BrowserAgent

/-! ## Continuation commands (`browser_agent.py`, module level) -/

/-- The continuation action → executor action map of `execute_continuation`. -/
def continuationActionMap : List (String × String) := [
  ("browser_click", "click"),
  ("browser_scroll", "scroll"),
  ("browser_type", "type"),
  ("browser_back", "back"),
  ("browser_refresh", "refresh")]

/-- `is_continuation_command(action)`. -/
def isContinuationCommand (action : String) : Bool :=
  (["browser_click", "browser_scroll", "browser_type",
    "browser_back", "browser_refresh"] : List String).contains action

/-- `execute_continuation(action, params)`.  `ctx`/`now` determine
`is_browser_active()`; `handlers` is the executor handler oracle;
`currentUrl` models `action_executor.get_current_url()`.  Besides the
`AgentResult` the model returns the list of action names passed to
`ActionExecutor.execute`, in call order, to make the number of primitive
executions observable. -/
def executeContinuation (ctx : BrowserContext) (now : ℚ)
    (handlers : String → Params → ActionResult) (currentUrl : String)
    (action : String) (params : Params) : AgentResult × List String :=
  if !ctx.is_active now then
    ({ success := false,
       message := "❌ No active browser session. Use /agent to start one first." }, [])
  else
    let executor_action := dictGetD continuationActionMap action action
    let pair :=
      if action = "browser_click" then
        ("click", ([("text", PVal.s (dictGetD params "target" (PVal.s "") |>.toStr))] : Params))
      else (executor_action, params)
    let executor_action := pair.1
    let params := pair.2
    let result := ActionExecutor.execute handlers executor_action params
    if result.success then
      let screenshot_result := ActionExecutor.execute handlers "screenshot"
        [("name", PVal.s ("continuation_" ++ action))]
      ({ success := true
         message := "✅ " ++ action ++ " executed successfully"
         screenshots := if screenshot_result.success then [screenshot_result.screenshot_path] else []
         final_url := currentUrl },
       [executor_action, "screenshot"])
    else
      ({ success := false
         message := "❌ " ++ action ++ " failed: " ++ result.error
         errors := [result.error] },
       [executor_action])

/-! ## Keyword matcher (`jarvix/core/keyword_matcher.py`) -/

/-- The outcome of `re.search(pattern, subject, flags-of-the-call-site)`:
`none` for no match, otherwise the whole match (group 0) and the numbered
capture groups.  The regex engine is external to the model; the engine
code decides which subject string gets passed to it. -/
abbrev RegexOracle := String → String → Option (String × List String)

/-- `match.group(n)` of a regex match. -/
def groupOf (m : String × List String) (n : Nat) : String :=
  if n = 0 then m.1 else m.2.getD (n - 1) ""

/-- One entry of `COMMAND_PATTERNS`. -/
structure PatternConfig where
  triggers : List String := []
  multi_step_hints : List String := []
  url_hints : List String := []
  extract_pattern : Option String := none
  action_template : Option Params := none
  action : Option Params := none
deriving DecidableEq, Repr

/-- `SYNONYMS` (insertion order preserved). -/
def synonyms : List (String × List String) := [
  ("screenshot", ["snap", "capture screen", "screen capture", "screen shot", "take screenshot", "grab screen"]),
  ("battery", ["power level", "charge", "battery level", "battery status", "how much battery", "battery percentage"]),
  ("shutdown", ["turn off", "power off", "shut down", "switch off", "turn off pc", "turn off computer"]),
  ("restart", ["reboot", "restart pc", "restart computer", "reboot pc"]),
  ("sleep", ["hibernate", "sleep mode", "put to sleep", "sleep pc"]),
  ("camera", ["webcam", "cam", "video", "camera on", "camera off"]),
  ("email", ["mail", "inbox", "gmail", "emails", "check mail", "check email", "my mail", "my emails"]),
  ("upcoming", ["interviews", "upcoming interviews", "scheduled interviews", "interview schedule"]),
  ("unsubscribe", ["promotional", "spam", "promotions", "marketing emails"]),
  ("payments", ["payment reminders", "bills due", "upcoming payments", "my bills", "pending payments", "emi due"]),
  ("subscriptions", ["subscription alerts", "renewal alerts", "subscriptions expiring", "my subscriptions", "renewal reminders"]),
  ("search", ["google", "look up", "look for", "find online", "search for", "search the web", "web search"]),
  ("browse", ["open website", "go to", "visit", "navigate to", "open url", "open site"]),
  ("cart", ["add to cart", "buy", "purchase", "order", "add to amazon", "amazon cart"]),
  ("find file", ["locate file", "where is", "find my", "search file", "look for file"]),
  ("storage", ["disk space", "drive space", "how much space", "storage space", "disk usage"]),
  ("recycle bin", ["trash", "clear bin", "empty bin", "clear trash", "empty trash"]),
  ("activities", ["what\x27s open", "active apps", "open apps", "running apps", "activity"]),
  ("clipboard", ["copied texts", "copy history", "clipboard history", "what i copied"]),
  ("location", ["where am i", "my location", "gps", "locate me"]),
  ("record", ["record audio", "voice recording", "record voice", "audio recording"]),
  ("profile", ["my profile", "my details", "my info", "user profile"]),
  ("focus", ["focus mode", "do not disturb", "dnd", "block apps"])]

/-- `COMMAND_PATTERNS` (insertion order preserved). -/
def commandPatterns : List (String × PatternConfig) := [
  ("take_screenshot",
    { triggers := ["screenshot", "ss", "snap", "capture screen", "screen capture", "/screenshot"]
      action := some [("action", .s "take_screenshot")] }),
  ("check_battery",
    { triggers := ["battery", "charge", "power level", "battery percentage", "/batterypercentage", "/battery"]
      action := some [("action", .s "check_battery")] }),
  ("check_health",
    { triggers := ["system health", "cpu usage", "memory usage", "system status", "/systemhealth", "/health"]
      action := some [("action", .s "check_health")] }),
  ("shutdown_pc",
    { triggers := ["shutdown", "turn off", "power off", "shut down", "/shutdown"]
      action := some [("action", .s "shutdown_pc")] }),
  ("restart_pc",
    { triggers := ["restart", "reboot", "/restart"]
      action := some [("action", .s "restart_pc")] }),
  ("system_sleep",
    { triggers := ["sleep", "hibernate", "put to sleep", "/sleep"]
      action := some [("action", .s "system_sleep")] }),
  ("system_panic",
    { triggers := ["panic", "emergency", "🚨"]
      action := some [("action", .s "system_panic")] }),
  ("camera_on",
    { triggers := ["camera on", "turn on camera", "start camera", "webcam on", "/camera_on"]
      action := some [("action", .s "camera_stream")] }),
  ("camera_off",
    { triggers := ["camera off", "turn off camera", "stop camera", "webcam off", "/camera_off"]
      action := some [("action", .s "camera_snap")] }),
  ("get_emails",
    { triggers := ["emails", "email", "inbox", "check mail", "check email", "check my email",
                   "check my emails", "my mail", "my emails", "show emails", "show my emails", "/emails"]
      action := some [("action", .s "get_emails")] }),
  ("get_upcoming_interviews",
    { triggers := ["upcoming interviews", "interview schedule", "my interviews", "upcoming", "/upcoming", "/interviews"]
      action := some [("action", .s "get_upcoming_interviews")] }),
  ("get_promotional",
    { triggers := ["promotional", "spam", "unsubscribe", "marketing emails", "/unsubscribe", "/promotional"]
      action := some [("action", .s "get_promotional")] }),
  ("get_payment_reminders",
    { triggers := ["payment reminders", "upcoming payments", "bills due", "my bills",
                   "pending payments", "emi due", "payment due", "/payments"]
      action := some [("action", .s "get_payment_reminders")] }),
  ("get_subscription_alerts",
    { triggers := ["subscription alerts", "renewal alerts", "subscriptions expiring",
                   "my subscriptions", "renewal reminders", "subscription renewal", "/subscriptions"]
      action := some [("action", .s "get_subscription_alerts")] }),
  ("web_search",
    { triggers := ["search", "google", "look up", "find online", "/search"]
      extract_pattern := some "(?:search\\s+(?:for\\s+)?|google\\s+|look\\s+up\\s+|find\\s+online\\s+|/search\\s+)(.+)"
      action_template := some [("action", .s "web_search"), ("query", .s "$1")] }),
  ("browser_compare",
    { triggers := ["compare prices", "compare price", "price comparison"]
      extract_pattern := some "(compare.+)"
      action_template := some [("action", .s "browser_agent"), ("goal", .s "$1")] }),
  ("browser_goal",
    { triggers := ["open", "go to", "visit", "browse", "/browse"]
      multi_step_hints := ["and search", "and find", "then search", "then find", "and click", "and select"]
      extract_pattern := some "((?:open|go\\s+to|visit|browse|/browse)\\s+.+(?:and|then)\\s+.+)"
      action_template := some [("action", .s "browser_agent"), ("goal", .s "$1")] }),
  ("browser_navigate",
    { triggers := ["browse", "go to", "open", "visit", "navigate to", "/browse"]
      url_hints := [".com", ".in", ".org", ".net", ".io", "http", "www", "youtube", "amazon", "google", "flipkart", "github"]
      extract_pattern := some "(?:browse\\s+|go\\s+to\\s+|open\\s+|visit\\s+|navigate\\s+to\\s+|/browse\\s+)(\\S+)"
      action_template := some [("action", .s "browser_navigate"), ("url", .s "$1")] }),
  ("add_to_cart",
    { triggers := ["add to cart", "add to amazon", "buy from amazon", "order from amazon", "/addcart", "/add_cart"]
      extract_pattern := some "(?:add\\s+to\\s+cart\\s+|add\\s+to\\s+amazon\\s+(?:cart\\s+)?|buy\\s+from\\s+amazon\\s+|order\\s+from\\s+amazon\\s+|/addcart\\s+|/add_cart\\s+)(.+)"
      action_template := some [("action", .s "add_to_cart"), ("product", .s "$1")] }),
  ("browser_screenshot",
    { triggers := ["browser screenshot", "show browser", "what\x27s on the page", "/browser_screenshot"]
      action := some [("action", .s "browser_screenshot")] }),
  ("stop_browser",
    { triggers := ["stop browser", "close browser", "/stop_browser"]
      action := some [("action", .s "stop_browser")] }),
  ("check_storage",
    { triggers := ["storage", "disk space", "drive space", "how much space", "/storage"]
      action := some [("action", .s "check_storage")] }),
  ("clear_recycle_bin",
    { triggers := ["clear bin", "empty bin", "clear trash", "empty trash", "clear recycle bin", "/clear_bin"]
      action := some [("action", .s "clear_recycle_bin")] }),
  ("get_activities",
    { triggers := ["activities", "what\x27s open", "active apps", "open apps", "running apps", "/activities"]
      action := some [("action", .s "get_activities")] }),
  ("get_clipboard_history",
    { triggers := ["clipboard", "copied texts", "copy history", "clipboard history", "/copied_texts"]
      action := some [("action", .s "get_clipboard_history")] }),
  ("get_location",
    { triggers := ["location", "where am i", "my location", "gps", "/location"]
      action := some [("action", .s "get_location")] }),
  ("record_audio",
    { triggers := ["record audio", "voice recording", "record voice", "/recordaudio", "/record"]
      action := some [("action", .s "record_audio"), ("duration", .n 10)] }),
  ("get_profile",
    { triggers := ["my profile", "show profile", "view profile", "/my_profile", "/profile"]
      action := some [("action", .s "get_profile")] }),
  ("fill_form_auto",
    { triggers := ["fill form", "fill this form", "autofill", "auto fill", "/fill_form"]
      action := some [("action", .s "fill_form_auto")] }),
  ("clear_profile",
    { triggers := ["clear profile", "delete profile", "/clear_profile"]
      action := some [("action", .s "clear_profile")] }),
  ("focus_mode_on",
    { triggers := ["focus mode", "focus on", "do not disturb", "dnd", "/focus_mode_on"]
      action := some [("action", .s "focus_mode"), ("sub_action", .s "on")] }),
  ("focus_mode_off",
    { triggers := ["focus off", "focus mode off", "/focus_mode_off"]
      action := some [("action", .s "focus_mode"), ("sub_action", .s "off")] }),
  ("focus_mode_status",
    { triggers := ["focus status", "blacklist", "/blacklist"]
      action := some [("action", .s "focus_mode"), ("sub_action", .s "status")] }),
  ("browser_click",
    { triggers := ["click on", "click", "tap on", "tap", "press on", "press the", "select"]
      extract_pattern := some "(?:click on|click|tap on|tap|press on|press the|select)\\s+(.+)"
      action_template := some [("action", .s "browser_click"), ("target", .s "$1")] }),
  ("browser_scroll",
    { triggers := ["scroll down", "scroll up", "scroll"]
      action := some [("action", .s "browser_scroll"), ("direction", .s "down")] }),
  ("browser_type",
    { triggers := ["type", "enter text", "write"]
      extract_pattern := some "(?:type|enter text|write)\\s+(.+)"
      action_template := some [("action", .s "browser_type"), ("text", .s "$1")] }),
  ("browser_back",
    { triggers := ["go back", "back", "previous page"]
      action := some [("action", .s "browser_back")] }),
  ("browser_refresh",
    { triggers := ["refresh", "reload"]
      action := some [("action", .s "browser_refresh")] }),
  ("browser_sort",
    { triggers := ["sort by"]
      extract_pattern := some "(?:sort\\s+by\\s+)(.+)"
      action_template := some [("action", .s "browser_sort"), ("sort_by", .s "$1")] }),
  ("browser_filter_price",
    { triggers := ["filter by price", "price under", "price below", "under", "below"]
      extract_pattern := some "(?:filter\\s+by\\s+price\\s+|price\\s+under\\s+|price\\s+below\\s+|under\\s+|below\\s+)(.+)"
      action_template := some [("action", .s "browser_filter_price"), ("max_price", .s "$1")] })]

namespace KeywordMatcher

/-- `_build_trigger_index()`: inverted index trigger → command names, in
dict insertion order. -/
def buildTriggerIndex : List (String × List String) :=
  commandPatterns.foldl
    (fun idx p => p.2.triggers.foldl (fun idx trig => dictAppend idx (pyLower trig) p.1) idx)
    []

/-- `_normalize_text(text)`. -/
def normalizeText (text : String) : String := pyStrip (pyLower text)

/-- `_expand_synonyms(text)`. -/
def expandSynonyms (text : String) : String :=
  synonyms.foldl
    (fun txt kv =>
      kv.2.foldl
        (fun txt variation =>
          let v := pyLower variation
          if v = "" then txt
          else if v.data.length ≤ 2 && v.data.all Char.isAlphanum then subWordAll v kv.1 txt
          else if pyIn v txt then pyReplace txt v kv.1
          else txt)
        txt)
    (pyLower text)

/-- `_trigger_matches(text_expanded, trigger)`. -/
def triggerMatches (text_expanded trigger : String) : Bool :=
  let t := pyStrip (pyLower trigger)
  if t = "" then false
  else if pyStartswith t "/" then pyStartswith text_expanded t
  else if pyIn " " t then pyIn t text_expanded
  else if t.data.length ≤ 2 && t.data.all Char.isAlphanum then containsWord t text_expanded
  else pyIn t text_expanded || pyStartswith text_expanded t

/-- The trigger-substring fallback loop at the end of `_extract_and_build`
(runs when the extraction regex did not match). -/
def fallbackExtract (normalized_text : String) (config : PatternConfig) :
    List String → Option Params
  | [] => none
  | trig :: rest =>
    if pyIn trig normalized_text then
      let entity := pyStrip (afterFirst normalized_text trig)
      if entity ≠ "" then
        some ((config.action_template.getD []).map
          (fun kv =>
            match kv.2 with
            | .s v => if pyStartswith v "$" then (kv.1, PVal.s entity) else kv
            | _ => kv))
      else fallbackExtract normalized_text config rest
    else fallbackExtract normalized_text config rest

set_option linter.unusedVariables false in
/-- `_extract_and_build(original_text, normalized_text, config)`.  Note:
the source passes `normalized_text` — not `original_text` — to
`re.search(pattern, ·, re.IGNORECASE)`; the `original_text` parameter is
received and never used, exactly as in the source. -/
def extractAndBuild (ro : RegexOracle) (original_text normalized_text : String)
    (config : PatternConfig) : Option Params :=
  match config.extract_pattern with
  | none => some (config.action.getD [])
  | some pattern =>
    match ro pattern normalized_text with
    | some m =>
      some ((config.action_template.getD []).map
        (fun kv =>
          match kv.2 with
          | .s v =>
            if pyStartswith v "$" then
              let groupNum := parseNatD (pyDrop 1 v)
              if groupNum ≤ m.2.length then (kv.1, PVal.s (pyStrip (groupOf m groupNum)))
              else kv
            else kv
          | _ => kv))
    | none => fallbackExtract normalized_text config config.triggers

/-- The `for trigger, cmd_names in self.trigger_index.items()` scan of
`match`. -/
def scanTriggers (ro : RegexOracle) (text tn te : String) :
    List (String × List String) → Option Params
  | [] => none
  | (trig, cmds) :: rest =>
    if triggerMatches te trig then
      let cmd := cmds.headD ""
      let config := (dictGet? commandPatterns cmd).getD {}
      if config.extract_pattern.isSome then
        match extractAndBuild ro text tn config with
        | some a => some a
        | none => scanTriggers ro text tn te rest
      else some (config.action.getD [])
    else scanTriggers ro text tn te rest

/-- The URL-looking-token pattern of the final detection step. -/
def urlDetectPat : String := "(https?://\\S+|www\\.\\S+|\\S+\\.(com|in|org|net|io)\\S*)"

/-- The hard-coded multi-step connective phrases of `match`. -/
def multiStepHints : List String :=
  ["and search", "and find", "then search", "then find", "and click", "and select", "and add"]

/-- The URL hints of the final detection step of `match`. -/
def urlHints : List String := [".com", ".in", ".org", ".net", ".io", "http", "www"]

/-- `KeywordMatcher.match(text)` (exported as `match_command`). -/
def matchCommand (ro : RegexOracle) (text : String) : Option Params :=
  if text = "" then none
  else
    let tn := normalizeText text
    let te := expandSynonyms tn
    let browseResult : Option Params :=
      if pyStartswith tn "/browse " then
        let goal := pyStrip (pyDrop 8 (pyStrip text))
        if goal ≠ "" then some [("action", PVal.s "browser_agent"), ("goal", PVal.s goal)]
        else none
      else none
    match browseResult with
    | some a => some a
    | none =>
      let multiResult : Option Params :=
        if multiStepHints.any (fun h => pyIn h tn) then
          match dictGet? commandPatterns "browser_goal" with
          | some config =>
            if config.extract_pattern.isSome then extractAndBuild ro text tn config else none
          | none => none
        else none
      match multiResult with
      | some a => some a
      | none =>
        match scanTriggers ro text tn te buildTriggerIndex with
        | some a => some a
        | none =>
          if urlHints.any (fun h => pyIn h tn) then
            match ro urlDetectPat tn with
            | some m => some [("action", PVal.s "browse_url"), ("url", PVal.s (groupOf m 1))]
            | none => none
          else none

end KeywordMatcher

/-! ## Helper facts about `updateAt` and the state operations -/

/-- Default step record (Python would raise instead of yielding it; it is
only the out-of-range default of positional lookups in statements). -/
def dRec : StepRecord := { step_index := 0, action := "", params := [] }

/-- Default action step for positional lookups in statements. -/
def dummyStep : ActionStep := { action := "" }

theorem updateAt_length {α : Type} (f : α → α) :
    ∀ (i : Nat) (l : List α), (updateAt f i l).length = l.length := by
  intro i l
  induction l generalizing i with
  | nil => cases i <;> rfl
  | cons x xs ih => cases i with
    | zero => rfl
    | succ n => simpa [updateAt] using ih n

theorem updateAt_getD_ne {α : Type} (f : α → α) (d : α) :
    ∀ (i j : Nat) (l : List α), j ≠ i → (updateAt f i l).getD j d = l.getD j d := by
  intro i j l
  induction l generalizing i j with
  | nil => intro _; cases i <;> rfl
  | cons x xs ih =>
    intro hne
    cases i with
    | zero => cases j with
      | zero => exact absurd rfl hne
      | succ m => simp [updateAt]
    | succ n => cases j with
      | zero => simp [updateAt]
      | succ m =>
        simp only [updateAt, List.getD_cons_succ]
        exact ih n m (by omega)

theorem updateAt_getD_eq {α : Type} (f : α → α) (d : α) :
    ∀ (i : Nat) (l : List α), i < l.length → (updateAt f i l).getD i d = f (l.getD i d) := by
  intro i l
  induction l generalizing i with
  | nil => intro h; simp at h
  | cons x xs ih =>
    intro h
    cases i with
    | zero => rfl
    | succ n =>
      simp only [updateAt, List.getD_cons_succ]
      exact ih n (by simpa using h)

theorem updateAt_map_sum_eq {α : Type} (f : α → α) (g : α → Nat)
    (hg : ∀ x, g (f x) = g x) :
    ∀ (i : Nat) (l : List α), ((updateAt f i l).map g).sum = (l.map g).sum := by
  intro i l
  induction l generalizing i with
  | nil => cases i <;> rfl
  | cons x xs ih => cases i with
    | zero => simp [updateAt, hg]
    | succ n => simp [updateAt, ih n]

theorem updateAt_map_sum_succ {α : Type} (f : α → α) (g : α → Nat)
    (hg : ∀ x, g (f x) = g x + 1) :
    ∀ (i : Nat) (l : List α), i < l.length →
      ((updateAt f i l).map g).sum = (l.map g).sum + 1 := by
  intro i l
  induction l generalizing i with
  | nil => intro h; simp at h
  | cons x xs ih =>
    intro h
    cases i with
    | zero => simp [updateAt, hg]; omega
    | succ n =>
      have := ih n (by simpa using h)
      simp [updateAt, this]; omega

/-! ## Claim C8: `get_progress` counting and percentage -/

/-- **C8** (confirmed).  For every `AgentState`, `get_progress()` reports
`completed` as the number of steps whose status is SUCCESS or SKIPPED,
`failed` as the number of FAILED steps, and `percent` equal to
`100 × completed / total_steps` (integer division; floats idealized to
exact arithmetic) when `total_steps > 0`, and 0 when `total_steps = 0`. -/
theorem progress_counts_and_percentage (st : AgentState) :
    st.get_progress.completed
        = (st.steps.filter (fun r => r.status = .success || r.status = .skipped)).length ∧
    st.get_progress.failed = (st.steps.filter (fun r => r.status = .failed)).length ∧
    st.get_progress.percent
        = (if 0 < st.total_steps then 100 * st.get_progress.completed / st.total_steps else 0) := by
  refine ⟨?_, ?_, ?_⟩
  · simp [AgentState.get_progress, List.countP_eq_length_filter]
  · simp [AgentState.get_progress, List.countP_eq_length_filter]
  · simp only [AgentState.get_progress]
    rw [Nat.mul_comm]

/-! ## Claim C6: `BrowserContext.is_active` freshness window -/

/-- A context whose browser has been marked closed but whose last action
was 1 second ago. -/
def ctxClosedFresh : BrowserContext := { is_open := false, last_action_time := some 0 }

/-- A fresh open context (last action at instant 0). -/
def ctxOpenFresh : BrowserContext := { is_open := true, last_action_time := some 0 }

/-- **C6, counterexample.**  The claim says `is_active()` is true just
under the 300-second boundary *regardless of the `is_open` flag*.  With
`is_open = false` and only 299 seconds elapsed, `is_active()` is false. -/
theorem is_active_ignores_claim_counterexample :
    ctxClosedFresh.last_action_time = some 0 ∧
    ((299 : ℚ) - 0 < BrowserContext.contextTimeoutSeconds) ∧
    ctxClosedFresh.is_active 299 = false := by
  refine ⟨rfl, by norm_num [BrowserContext.contextTimeoutSeconds], rfl⟩

/-- **C6** (corrected).  With a recorded last-action time, `is_active()`
is false whenever at least 300 seconds have elapsed, and just under the
boundary it equals the `is_open` flag (so it is true only when the browser
is still marked open). -/
theorem is_active_window (ctx : BrowserContext) (now t : ℚ)
    (h : ctx.last_action_time = some t) :
    (BrowserContext.contextTimeoutSeconds ≤ now - t → ctx.is_active now = false) ∧
    (now - t < BrowserContext.contextTimeoutSeconds → ctx.is_active now = ctx.is_open) := by
  constructor
  · intro hle
    simp only [BrowserContext.is_active, h]
    cases hopen : ctx.is_open with
    | false => simp
    | true => simp [not_lt.mpr hle]
  · intro hlt
    simp only [BrowserContext.is_active, h]
    cases hopen : ctx.is_open with
    | false => simp
    | true => simp [hlt]

/-- **C6, witness.** -/
theorem is_active_window_witness : ctxOpenFresh.is_active 299 = true := by
  have h := (is_active_window ctxOpenFresh 299 0 rfl).2
    (by norm_num [BrowserContext.contextTimeoutSeconds])
  exact h

/-! ## Claim C4: the `/browse` priority override -/

/-- A regex oracle that never matches (the `/browse` branch of `match`
returns before any regex is consulted, so the C4 results hold for every
oracle; this one closes the counterexample). -/
def roNone : RegexOracle := fun _ _ => none

/-- **C4, counterexample.**  The claim asserts the goal text is
`"open amazon.in and search best gaming laptop"`; the code returns the
text after the slash command without prepending `"open "`. -/
theorem browse_priority_counterexample :
    KeywordMatcher.matchCommand roNone "/browse amazon.in and search best gaming laptop"
      = some [("action", PVal.s "browser_agent"),
              ("goal", PVal.s "amazon.in and search best gaming laptop")] ∧
    ("amazon.in and search best gaming laptop" : String)
      ≠ "open amazon.in and search best gaming laptop" := by
  exact ⟨rfl, by decide⟩

/-- **C4** (corrected).  For every regex oracle,
`match("/browse amazon.in and search best gaming laptop")` returns the
composite `browser_agent` goal action — not a bare navigate — with goal
text `"amazon.in and search best gaming laptop"` (the text after the
slash command, with no `"open "` prefix). -/
theorem browse_priority_routes_to_goal (ro : RegexOracle) :
    KeywordMatcher.matchCommand ro "/browse amazon.in and search best gaming laptop"
      = some [("action", PVal.s "browser_agent"),
              ("goal", PVal.s "amazon.in and search best gaming laptop")] := by
  rfl

/-- **C4, witness** (instantiation at a concrete oracle). -/
theorem browse_priority_routes_to_goal_witness :
    KeywordMatcher.matchCommand (fun _ _ => some ("", []))
        "/browse amazon.in and search best gaming laptop"
      = some [("action", PVal.s "browser_agent"),
              ("goal", PVal.s "amazon.in and search best gaming laptop")] :=
  browse_priority_routes_to_goal (fun _ _ => some ("", []))

/-! ## Claim C7: which text the extraction regex is applied to -/

/-- The `web_search` extraction pattern string. -/
def webSearchPat : String :=
  "(?:search\\s+(?:for\\s+)?|google\\s+|look\\s+up\\s+|find\\s+online\\s+|/search\\s+)(.+)"

/-- Pointwise model of `re.search(webSearchPat, ·, re.IGNORECASE)` at the
two subject strings relevant to the C7 input `"search Hello"`: on the
lowercased copy the capture group is `"hello"`, on the original
case-preserved text it is `"Hello"`. -/
def roWeb : RegexOracle := fun pat text =>
  if pat = webSearchPat then
    if text = "search hello" then some ("search hello", ["hello"])
    else if text = "search Hello" then some ("search Hello", ["Hello"])
    else none
  else none

/-- **C7** (code bug).  `match("search Hello")` produces the query
`"hello"`: `_extract_and_build` passes the lowercased `normalized_text` to
`re.search`, although it receives (and ignores) `original_text` and passes
`re.IGNORECASE`, which is vacuous on an already-lowercased subject.  Had
the regex been applied to the original case-preserved text, as the spec
states, the capture group would have been `"Hello"`. -/
theorem extraction_uses_lowercased_text :
    KeywordMatcher.matchCommand roWeb "search Hello"
      = some [("action", PVal.s "web_search"), ("query", PVal.s "hello")] ∧
    roWeb webSearchPat "search Hello" = some ("search Hello", ["Hello"]) ∧
    pyStrip (groupOf ("search Hello", ["Hello"]) 1) = "Hello" ∧
    ("hello" : String) ≠ "Hello" := by
  refine ⟨by rfl, rfl, by rfl, by decide⟩

/-! ## Claim C2: continuation vocabulary versus executor primitives -/

/-- An executor handler oracle whose handlers always succeed. -/
def handlersOK : String → Params → ActionResult :=
  fun a _ => { success := true, action := a, screenshot_path := "shot.png" }

/-- **C2, counterexample.**  With an active context, the continuation
token `browser_back` is mapped to the executor action `"back"`, which is
not one of `ActionExecutor`'s recognized primitive actions: the dispatch
falls through to the unknown-action failure even though every handler
succeeds. -/
theorem continuation_back_counterexample :
    (executeContinuation ctxOpenFresh 0 handlersOK "" "browser_back" []).1.success = false ∧
    (executeContinuation ctxOpenFresh 0 handlersOK "" "browser_back" []).2 = ["back"] ∧
    ("back" : String) ∉ ActionExecutor.recognizedActions ∧
    (executeContinuation ctxOpenFresh 0 handlersOK "" "browser_back" []).1.errors
      = ["Unknown action: back"] := by
  have hact : (!ctxOpenFresh.is_active 0) = false := by
    have : ctxOpenFresh.is_active 0 = true := by
      norm_num [BrowserContext.is_active, ctxOpenFresh, BrowserContext.contextTimeoutSeconds]
    rw [this]; rfl
  have hrun : executeContinuation ctxOpenFresh 0 handlersOK "" "browser_back" []
      = ({ success := false, message := "❌ browser_back failed: Unknown action: back",
           errors := ["Unknown action: back"] }, ["back"]) := by
    unfold executeContinuation
    rw [hact]
    decide
  rw [hrun]
  exact ⟨rfl, rfl, by decide, rfl⟩

/-- **C2** (corrected).  Given an active `BrowserContext`, the tokens
`browser_click`, `browser_scroll`, `browser_type` map onto recognized
`ActionExecutor` primitives (`click`, `scroll`, `type`) and the mapped
primitive is executed exactly once, with no retry loop (a successful
execution additionally triggers one `screenshot` call); the tokens
`browser_back` and `browser_refresh` map to `"back"` and `"refresh"`,
which are *not* recognized primitives, so those continuations always fail
with an unknown-action error. -/
theorem continuation_vocabulary (ctx : BrowserContext) (now : ℚ)
    (handlers : String → Params → ActionResult) (url : String) (params : Params)
    (hactive : ctx.is_active now = true) :
    (∀ tok ∈ (["browser_click", "browser_scroll", "browser_type"] : List String),
      dictGetD continuationActionMap tok tok ∈ ActionExecutor.recognizedActions ∧
      ((executeContinuation ctx now handlers url tok params).2
          = [dictGetD continuationActionMap tok tok] ∨
       (executeContinuation ctx now handlers url tok params).2
          = [dictGetD continuationActionMap tok tok, "screenshot"])) ∧
    (∀ tok ∈ (["browser_back", "browser_refresh"] : List String),
      (executeContinuation ctx now handlers url tok params).1.success = false ∧
      (executeContinuation ctx now handlers url tok params).2
          = [dictGetD continuationActionMap tok tok] ∧
      dictGetD continuationActionMap tok tok ∉ ActionExecutor.recognizedActions) := by
  have hact : (!ctx.is_active now) = false := by rw [hactive]; rfl
  have hmapClick : dictGetD continuationActionMap "browser_click" "browser_click" = "click" := by
    decide
  have hmapScroll : dictGetD continuationActionMap "browser_scroll" "browser_scroll" = "scroll" := by
    decide
  have hmapType : dictGetD continuationActionMap "browser_type" "browser_type" = "type" := by
    decide
  have hmapBack : dictGetD continuationActionMap "browser_back" "browser_back" = "back" := by
    decide
  have hmapRefresh :
      dictGetD continuationActionMap "browser_refresh" "browser_refresh" = "refresh" := by
    decide
  constructor
  · intro tok htok
    fin_cases htok
    · refine ⟨by rw [hmapClick]; decide, ?_⟩
      by_cases hres :
          (ActionExecutor.execute handlers "click"
            [("text", PVal.s (dictGetD params "target" (PVal.s "") |>.toStr))]).success = true
      · right
        simp [executeContinuation, hact, hres, hmapClick]
      · have hres2 :
            (ActionExecutor.execute handlers "click"
              [("text", PVal.s (dictGetD params "target" (PVal.s "") |>.toStr))]).success = false := by
          simpa using hres
        left
        simp [executeContinuation, hact, hres2, hmapClick]
    · refine ⟨by rw [hmapScroll]; decide, ?_⟩
      by_cases hres : (ActionExecutor.execute handlers "scroll" params).success = true
      · right; simp [executeContinuation, hact, hres, hmapScroll]
      · have hres2 : (ActionExecutor.execute handlers "scroll" params).success = false := by
          simpa using hres
        left; simp [executeContinuation, hact, hres2, hmapScroll]
    · refine ⟨by rw [hmapType]; decide, ?_⟩
      by_cases hres : (ActionExecutor.execute handlers "type" params).success = true
      · right; simp [executeContinuation, hact, hres, hmapType]
      · have hres2 : (ActionExecutor.execute handlers "type" params).success = false := by
          simpa using hres
        left; simp [executeContinuation, hact, hres2, hmapType]
  · intro tok htok
    have hback : ∀ p, ActionExecutor.execute handlers "back" p
        = { success := false, action := "back", error := "Unknown action: back" } :=
      fun _ => rfl
    have hrefresh : ∀ p, ActionExecutor.execute handlers "refresh" p
        = { success := false, action := "refresh", error := "Unknown action: refresh" } :=
      fun _ => rfl
    fin_cases htok
    · refine ⟨?_, ?_, by rw [hmapBack]; decide⟩ <;>
        simp [executeContinuation, hact, hback, hmapBack]
    · refine ⟨?_, ?_, by rw [hmapRefresh]; decide⟩ <;>
        simp [executeContinuation, hact, hrefresh, hmapRefresh]

/-- **C2, witness.** -/
theorem continuation_vocabulary_witness :
    ("click" : String) ∈ ActionExecutor.recognizedActions ∧
    ((executeContinuation ctxOpenFresh 0 handlersOK "" "browser_click" []).2 = ["click"] ∨
     (executeContinuation ctxOpenFresh 0 handlersOK "" "browser_click" []).2
        = ["click", "screenshot"]) := by
  have hactive : ctxOpenFresh.is_active 0 = true := by
    norm_num [BrowserContext.is_active, ctxOpenFresh, BrowserContext.contextTimeoutSeconds]
  have h := (continuation_vocabulary ctxOpenFresh 0 handlersOK "" [] hactive).1
    "browser_click" (by decide)
  simpa using h

/-! ## Claim C9: every pattern-built plan ends with a screenshot -/

theorem createSimpleNavigatePlan_ends (url : String) :
    (GoalPlanner.createSimpleNavigatePlan url).steps ≠ [] ∧
    ((GoalPlanner.createSimpleNavigatePlan url).steps.getLast?.map (fun s => s.action))
      = some "screenshot" := by
  unfold GoalPlanner.createSimpleNavigatePlan
  exact ⟨by simp, rfl⟩

theorem createSiteSearchPlan_ends (site query : String) :
    (GoalPlanner.createSiteSearchPlan site query).steps ≠ [] ∧
    ((GoalPlanner.createSiteSearchPlan site query).steps.getLast?.map (fun s => s.action))
      = some "screenshot" := by
  unfold GoalPlanner.createSiteSearchPlan
  constructor
  · simp
  · rw [List.getLast?_append_of_ne_nil _ (by simp)]
    rfl

theorem createPriceCheckPlan_ends (site product pfx : String) :
    (GoalPlanner.createPriceCheckPlan site product pfx).steps ≠ [] ∧
    ((GoalPlanner.createPriceCheckPlan site product pfx).steps.getLast?.map (fun s => s.action))
      = some "screenshot" := by
  unfold GoalPlanner.createPriceCheckPlan
  constructor
  · simp
  · rw [List.getLast?_append_of_ne_nil _ (by simp)]
    rfl

theorem foldl_append_eq_flatMap {α : Type} (g : String → List α) :
    ∀ (l : List String) (acc : List α),
      l.foldl (fun a d => a ++ g d) acc = acc ++ l.flatMap g := by
  intro l
  induction l with
  | nil => intro acc; simp
  | cons d rest ih => intro acc; simp [ih, List.append_assoc]

theorem flatMap_ends (g : String → List ActionStep)
    (hne : ∀ d, g d ≠ [])
    (hlast : ∀ d, ((g d).getLast?.map (fun s => s.action)) = some "screenshot") :
    ∀ l : List String, l ≠ [] →
      (l.flatMap g ≠ [] ∧ ((l.flatMap g).getLast?.map (fun s => s.action)) = some "screenshot") := by
  intro l
  induction l with
  | nil => intro h; exact absurd rfl h
  | cons d rest ih =>
    intro _
    by_cases hrest : rest = []
    · subst hrest
      simp only [List.flatMap_cons, List.flatMap_nil, List.append_nil]
      exact ⟨hne d, hlast d⟩
    · have := ih hrest
      constructor
      · simp [List.flatMap_cons, this.1]
      · rw [List.flatMap_cons, List.getLast?_append_of_ne_nil _ this.1]
        exact this.2

theorem normalizeSites_ne_nil (sites : List String) : GoalPlanner.normalizeSites sites ≠ [] := by
  have h : ∀ ns : List String,
      (if ns = [] then (["amazon.in", "flipkart.com", "ebay.com"] : List String) else ns) ≠ [] := by
    intro ns
    split
    · simp
    · assumption
  unfold GoalPlanner.normalizeSites
  exact h _

theorem createMultiSiteComparePlan_ends (product : String) (sites : List String) :
    (GoalPlanner.createMultiSiteComparePlan product sites).steps ≠ [] ∧
    ((GoalPlanner.createMultiSiteComparePlan product sites).steps.getLast?.map
        (fun s => s.action)) = some "screenshot" := by
  unfold GoalPlanner.createMultiSiteComparePlan
  simp only [foldl_append_eq_flatMap, List.nil_append]
  exact flatMap_ends _
    (fun d => (createPriceCheckPlan_ends ("https://www." ++ d) product (GoalPlanner.sitePfx d)).1)
    (fun d => (createPriceCheckPlan_ends ("https://www." ++ d) product (GoalPlanner.sitePfx d)).2)
    _ (normalizeSites_ne_nil sites)

/-- **C9** (confirmed).  For every goal on which pattern-based planning
succeeds — i.e. for every fired intent pattern with its captured groups —
the resulting `ActionPlan` is non-empty and its final step has action
`"screenshot"`. -/
theorem pattern_plans_end_with_screenshot (m : GoalPlanner.PatternIntent) :
    (GoalPlanner.patternPlan m).steps ≠ [] ∧
    ((GoalPlanner.patternPlan m).steps.getLast?.map (fun s => s.action))
      = some "screenshot" := by
  cases m with
  | openShortSearch site query => exact createSiteSearchPlan_ends _ _
  | openDomainSearch site query => exact createSiteSearchPlan_ends _ _
  | searchOnSite query site => exact createSiteSearchPlan_ends _ _
  | quickSearch site query => exact createSiteSearchPlan_ends _ _
  | priceCheck product site => exact createPriceCheckPlan_ends _ _ _
  | multiCompare product sitesRaw => exact createMultiSiteComparePlan_ends _ _
  | simpleOpen target => exact createSimpleNavigatePlan_ends _

/-- **C9, witness** (instantiation at a concrete intent). -/
theorem pattern_plans_end_with_screenshot_witness :
    (GoalPlanner.patternPlan (.simpleOpen "youtube")).steps ≠ [] ∧
    ((GoalPlanner.patternPlan (.simpleOpen "youtube")).steps.getLast?.map
        (fun s => s.action)) = some "screenshot" :=
  pattern_plans_end_with_screenshot (.simpleOpen "youtube")

/-! ## Claim C3: per-site key prefixes of multi-site compare plans -/

/-- The `save_as` keys of the `extract` steps in a step list. -/
def saveKeysOf (steps : List ActionStep) : List String :=
  steps.filterMap (fun s =>
    if s.action = "extract" then
      match dictGet? s.params "save_as" with
      | some (PVal.s k) => some k
      | some (PVal.n _) => none
      | none => none
    else none)

/-- The `save_as` keys of the `extract` steps of a plan. -/
def extractSaveKeys (plan : ActionPlan) : List String := saveKeysOf plan.steps

/-- **C3, counterexample.**  The two distinct site names `"github"` and
`"github.io"` normalize to the two distinct domains `github.com` and
`github.io`, yet both get the key marker `"github_"`: the resulting
multi-site compare plan contains two extract steps saving to the same
`extracted_data` key `"github_price"`. -/
theorem multi_site_prefix_counterexample :
    GoalPlanner.normalizeSites ["github", "github.io"] = ["github.com", "github.io"] ∧
    ¬ (((GoalPlanner.normalizeSites ["github", "github.io"]).map
          GoalPlanner.sitePfx).Pairwise (· ≠ ·)) ∧
    (extractSaveKeys
        (GoalPlanner.createMultiSiteComparePlan "laptop" ["github", "github.io"])).countP
      (fun k => k = "github_price") = 2 := by
  refine ⟨by decide, by decide, by decide⟩

theorem saveKeysOf_append (a b : List ActionStep) :
    saveKeysOf (a ++ b) = saveKeysOf a ++ saveKeysOf b :=
  List.filterMap_append a b _

theorem saveKeysOf_siteSearchPlan (site query : String) :
    saveKeysOf (GoalPlanner.createSiteSearchPlan site query).steps = [] := by
  unfold GoalPlanner.createSiteSearchPlan
  simp only [saveKeysOf]
  repeat' split
  all_goals rfl

theorem saveKeysOf_priceCheckPlan (site product pfx : String) (hp : pfx ≠ "") :
    saveKeysOf (GoalPlanner.createPriceCheckPlan site product pfx).steps
      = [pfx ++ "price", pfx ++ "product_name", pfx ++ "rating"] := by
  unfold GoalPlanner.createPriceCheckPlan
  rw [saveKeysOf_append, saveKeysOf_siteSearchPlan site product]
  simp [saveKeysOf, dictGet?, hp]

theorem sitePfx_ne_empty (d : String) : GoalPlanner.sitePfx d ≠ "" := by
  unfold GoalPlanner.sitePfx
  intro h
  have := congrArg String.data h
  rw [String.data_append] at this
  simp at this

theorem saveKeysOf_multiPlan (product : String) (sites : List String) :
    extractSaveKeys (GoalPlanner.createMultiSiteComparePlan product sites)
      = (GoalPlanner.normalizeSites sites).flatMap
          (fun d => [GoalPlanner.sitePfx d ++ "price",
                     GoalPlanner.sitePfx d ++ "product_name",
                     GoalPlanner.sitePfx d ++ "rating"]) := by
  unfold extractSaveKeys GoalPlanner.createMultiSiteComparePlan
  simp only [foldl_append_eq_flatMap, List.nil_append]
  generalize GoalPlanner.normalizeSites sites = l
  induction l with
  | nil => rfl
  | cons d rest ih =>
    rw [List.flatMap_cons, List.flatMap_cons, saveKeysOf_append,
      saveKeysOf_priceCheckPlan _ product _ (sitePfx_ne_empty d), ih]

theorem str_append_cancel_right (x y s : String) (h : x ++ s = y ++ s) : x = y := by
  have hd := congrArg String.data h
  rw [String.data_append, String.data_append] at hd
  exact String.ext (List.append_cancel_right hd)

theorem str_append_cancel_left (x s t : String) (h : x ++ s = x ++ t) : s = t := by
  have hd := congrArg String.data h
  rw [String.data_append, String.data_append] at hd
  exact String.ext (List.append_cancel_left hd)

theorem str_append_suffix_clash (s t : String)
    (h1 : ¬ s.data <:+ t.data) (h2 : ¬ t.data <:+ s.data) :
    ∀ x y : String, x ++ s ≠ y ++ t := by
  intro x y he
  have hd := congrArg String.data he
  rw [String.data_append, String.data_append] at hd
  have hs : s.data <:+ (y.data ++ t.data) := hd ▸ List.suffix_append x.data s.data
  have ht : t.data <:+ (y.data ++ t.data) := List.suffix_append _ _
  rcases List.suffix_or_suffix_of_suffix hs ht with h | h
  · exact h1 h
  · exact h2 h

/-- Equality of the key markers implies equality of the first domain
labels. -/
theorem sitePfx_inj_label (a b : String)
    (h : GoalPlanner.sitePfx a = GoalPlanner.sitePfx b) :
    (pySplitOn a ".").headD "" = (pySplitOn b ".").headD "" := by
  unfold GoalPlanner.sitePfx at h
  exact str_append_cancel_right _ _ _ h

/-- **C3** (corrected).  The per-site key prefixes of a multi-site compare
plan are pairwise distinct — and the `save_as` keys of its extract steps
collision-free — precisely when the normalized, de-duplicated domains have
pairwise distinct first labels.  De-duplication is by full domain while
the prefix is only the first label, so distinct site names that share a
first label (e.g. `github.com` / `github.io`) defeat the claim. -/
theorem multi_site_prefixes_distinct (product : String) (sites : List String)
    (h : (GoalPlanner.normalizeSites sites).Pairwise
        (fun a b => (pySplitOn a ".").headD "" ≠ (pySplitOn b ".").headD "")) :
    ((GoalPlanner.normalizeSites sites).map GoalPlanner.sitePfx).Pairwise (· ≠ ·) ∧
    (extractSaveKeys (GoalPlanner.createMultiSiteComparePlan product sites)).Nodup := by
  have hclash1 : ¬ ("price" : String).data <:+ ("product_name" : String).data := by decide
  have hclash2 : ¬ ("product_name" : String).data <:+ ("price" : String).data := by decide
  have hclash3 : ¬ ("price" : String).data <:+ ("rating" : String).data := by decide
  have hclash4 : ¬ ("rating" : String).data <:+ ("price" : String).data := by decide
  have hclash5 : ¬ ("product_name" : String).data <:+ ("rating" : String).data := by decide
  have hclash6 : ¬ ("rating" : String).data <:+ ("product_name" : String).data := by decide
  constructor
  · rw [List.pairwise_map]
    refine h.imp ?_
    intro a b hab heq
    exact hab (sitePfx_inj_label a b heq)
  · rw [saveKeysOf_multiPlan, List.nodup_flatMap]
    constructor
    · intro d _
      simp only [List.nodup_cons, List.mem_cons, List.not_mem_nil, or_false,
        List.nodup_nil, and_true, not_or]
      repeat' constructor
      all_goals intro he
      all_goals first
        | exact he
        | exact absurd (str_append_cancel_left _ _ _ he) (by decide)
    · refine h.imp ?_
      intro a b hab
      intro k hka hkb
      have hlab : GoalPlanner.sitePfx a ≠ GoalPlanner.sitePfx b := by
        intro heq; exact hab (sitePfx_inj_label a b heq)
      simp only [List.mem_cons, List.not_mem_nil, or_false] at hka hkb
      rcases hka with h1 | h1 | h1 <;> rcases hkb with h2 | h2 | h2 <;>
        (subst h1; try subst h2)
      · exact hlab (str_append_cancel_right _ _ _ h2)
      · exact str_append_suffix_clash _ _ hclash1 hclash2 _ _ h2
      · exact str_append_suffix_clash _ _ hclash3 hclash4 _ _ h2
      · exact str_append_suffix_clash _ _ hclash2 hclash1 _ _ h2
      · exact hlab (str_append_cancel_right _ _ _ h2)
      · exact str_append_suffix_clash _ _ hclash5 hclash6 _ _ h2
      · exact str_append_suffix_clash _ _ hclash4 hclash3 _ _ h2
      · exact str_append_suffix_clash _ _ hclash6 hclash5 _ _ h2
      · exact hlab (str_append_cancel_right _ _ _ h2)

/-- **C3, witness.** -/
theorem multi_site_prefixes_distinct_witness :
    ((GoalPlanner.normalizeSites ["amazon", "flipkart"]).map
        GoalPlanner.sitePfx).Pairwise (· ≠ ·) ∧
    (extractSaveKeys
        (GoalPlanner.createMultiSiteComparePlan "x" ["amazon", "flipkart"])).Nodup :=
  multi_site_prefixes_distinct "x" ["amazon", "flipkart"] (by decide)

/-! ## Claim C10: retry bound and the total_retries invariant -/

theorem executeAttempts_calls_le (env : ExecEnv) (i maxR : Nat) :
    ∀ (remaining attempt : Nat) (st : AgentState),
      (BrowserAgent.executeAttempts env i maxR remaining attempt st).2.2 ≤ remaining := by
  intro remaining
  induction remaining with
  | zero => intro attempt st; simp [BrowserAgent.executeAttempts]
  | succ n ih =>
    intro attempt st
    simp only [BrowserAgent.executeAttempts]
    split
    · simp
    · simp only []
      have h := ih (attempt + 1)
        (if attempt == maxR then
          (if attempt > 0 then st.retry_step i else st).start_step i
            env.timestamp |>.complete_step i false (env.result i attempt).error [] ""
              (env.result i attempt).duration_ms
         else (if attempt > 0 then st.retry_step i else st).start_step i env.timestamp)
      omega

/-- The invariant of C10: the session-wide retry counter equals the sum of
the per-step retry counters. -/
def retrySumInv (st : AgentState) : Prop :=
  st.total_retries = (st.steps.map (fun r => r.retry_count)).sum

theorem mkRecords_retry_sum : ∀ (i : Nat) (plan : List (String × Params)),
    ((AgentState.mkRecords i plan).map (fun r => r.retry_count)).sum = 0 := by
  intro i plan
  induction plan generalizing i with
  | nil => rfl
  | cons hd rest ih =>
    obtain ⟨action, params⟩ := hd
    simp [AgentState.mkRecords, ih]

theorem agentOp_preserves_retrySumInv (st : AgentState) (op : AgentOp)
    (h : retrySumInv st) : retrySumInv (op.apply st) := by
  cases op with
  | reset goal now => simp [AgentOp.apply, AgentState.reset, retrySumInv]
  | set_plan plan =>
    simp only [AgentOp.apply, AgentState.set_plan, retrySumInv, List.map_append,
      List.sum_append, mkRecords_retry_sum]
    simpa using h
  | start_step i ts =>
    simp only [AgentOp.apply, AgentState.start_step]
    split
    · simp only [retrySumInv]
      rw [updateAt_map_sum_eq
        (fun r : StepRecord => { r with status := StepStatus.running, timestamp := ts })
        (fun r => r.retry_count) (fun _ => rfl)]
      exact h
    · exact h
  | complete_step i ok err data shot dur =>
    simp only [AgentOp.apply, AgentState.complete_step]
    split
    · simp only [retrySumInv]
      rw [updateAt_map_sum_eq
        (fun r : StepRecord => { r with
          status := if ok then StepStatus.success else StepStatus.failed
          error := err, result_data := data, screenshot := shot, duration_ms := dur })
        (fun r => r.retry_count) (fun _ => rfl)]
      exact h
    · exact h
  | retry_step i =>
    simp only [AgentOp.apply, AgentState.retry_step]
    split
    · rename_i hin
      simp only [retrySumInv] at h ⊢
      rw [updateAt_map_sum_succ
        (fun r : StepRecord => { r with status := StepStatus.retrying, retry_count := r.retry_count + 1 })
        (fun r => r.retry_count) (fun _ => rfl) i st.steps hin, h]
    · exact h
  | skip_step i reason =>
    simp only [AgentOp.apply, AgentState.skip_step]
    split
    · simp only [retrySumInv]
      rw [updateAt_map_sum_eq
        (fun r : StepRecord => { r with status := StepStatus.skipped, error := reason })
        (fun r => r.retry_count) (fun _ => rfl)]
      exact h
    · exact h
  | finish ok now => simpa [AgentOp.apply, AgentState.finish, retrySumInv] using h
  | update_url url => simpa [AgentOp.apply, AgentState.update_url, retrySumInv] using h

theorem applyOps_retrySumInv (ops : List AgentOp) :
    ∀ st : AgentState, retrySumInv st → retrySumInv (applyOps st ops) := by
  induction ops with
  | nil => intro st h; exact h
  | cons op rest ih =>
    intro st h
    exact ih _ (agentOp_preserves_retrySumInv st op h)

/-- **C10** (confirmed).  For every step of every execution,
`ActionExecutor.execute` is invoked at most `max_retries + 1` times
(default `max_retries = 3`), and after any sequence of `AgentState`
operations starting from the freshly constructed state,
`AgentState.total_retries` equals the sum of `retry_count` over all
`StepRecord`s. -/
theorem retry_bound_and_retry_sum :
    (∀ (env : ExecEnv) (i : Nat) (st : AgentState),
      (BrowserAgent.executeStepWithRetry env i st).2.2 ≤ BrowserAgent.maxRetries + 1) ∧
    (∀ ops : List AgentOp, retrySumInv (applyOps {} ops)) := by
  constructor
  · intro env i st
    exact executeAttempts_calls_le env i BrowserAgent.maxRetries (BrowserAgent.maxRetries + 1) 0 st
  · intro ops
    exact applyOps_retrySumInv ops {} rfl

/-! ## Execution-loop machinery for claims C5 and C1 -/

/-- Whether some attempt within the retry budget succeeds for step `i`. -/
def succeedsWithin (env : ExecEnv) (i : Nat) : Bool :=
  (List.range (BrowserAgent.maxRetries + 1)).any (fun a => (env.result i a).success)

/-- Frame facts for `retry_step`. -/
theorem retry_step_frame (st : AgentState) (i : Nat) :
    (st.retry_step i).status = st.status ∧
    (st.retry_step i).total_steps = st.total_steps ∧
    (st.retry_step i).steps.length = st.steps.length ∧
    (∀ j, j ≠ i → (st.retry_step i).steps.getD j dRec = st.steps.getD j dRec) := by
  unfold AgentState.retry_step
  split
  · exact ⟨rfl, rfl, by simp [updateAt_length], fun j hj => updateAt_getD_ne _ _ _ _ _ hj⟩
  · exact ⟨rfl, rfl, rfl, fun _ _ => rfl⟩

/-- Frame facts for `start_step`. -/
theorem start_step_frame (st : AgentState) (i : Nat) (ts : String) :
    (st.start_step i ts).status = st.status ∧
    (st.start_step i ts).total_steps = st.total_steps ∧
    (st.start_step i ts).steps.length = st.steps.length ∧
    (∀ j, j ≠ i → (st.start_step i ts).steps.getD j dRec = st.steps.getD j dRec) := by
  unfold AgentState.start_step
  split
  · exact ⟨rfl, rfl, by simp [updateAt_length], fun j hj => updateAt_getD_ne _ _ _ _ _ hj⟩
  · exact ⟨rfl, rfl, rfl, fun _ _ => rfl⟩

/-- Frame facts for `complete_step`. -/
theorem complete_step_frame (st : AgentState) (i : Nat) (ok : Bool) (err : String)
    (data : Params) (shot : String) (dur : ℚ) :
    (st.complete_step i ok err data shot dur).status = st.status ∧
    (st.complete_step i ok err data shot dur).total_steps = st.total_steps ∧
    (st.complete_step i ok err data shot dur).steps.length = st.steps.length ∧
    (∀ j, j ≠ i →
      (st.complete_step i ok err data shot dur).steps.getD j dRec = st.steps.getD j dRec) := by
  unfold AgentState.complete_step
  split
  · exact ⟨rfl, rfl, by simp [updateAt_length], fun j hj => updateAt_getD_ne _ _ _ _ _ hj⟩
  · exact ⟨rfl, rfl, rfl, fun _ _ => rfl⟩

/-- `complete_step` sets the status at the completed index. -/
theorem complete_step_at (st : AgentState) (i : Nat) (ok : Bool) (err : String)
    (data : Params) (shot : String) (dur : ℚ) (hin : i < st.steps.length) :
    ((st.complete_step i ok err data shot dur).steps.getD i dRec).status
      = (if ok then StepStatus.success else StepStatus.failed) := by
  unfold AgentState.complete_step
  rw [if_pos hin, updateAt_getD_eq _ _ _ _ hin]

/-- Frame facts for `skip_step`. -/
theorem skip_step_frame (st : AgentState) (i : Nat) (reason : String) :
    (st.skip_step i reason).status = st.status ∧
    (st.skip_step i reason).total_steps = st.total_steps ∧
    (st.skip_step i reason).steps.length = st.steps.length ∧
    (∀ j, j ≠ i → (st.skip_step i reason).steps.getD j dRec = st.steps.getD j dRec) := by
  unfold AgentState.skip_step
  split
  · exact ⟨rfl, rfl, by simp [updateAt_length], fun j hj => updateAt_getD_ne _ _ _ _ _ hj⟩
  · exact ⟨rfl, rfl, rfl, fun _ _ => rfl⟩

/-- `skip_step` sets SKIPPED at the skipped index. -/
theorem skip_step_at (st : AgentState) (i : Nat) (reason : String)
    (hin : i < st.steps.length) :
    ((st.skip_step i reason).steps.getD i dRec).status = StepStatus.skipped := by
  unfold AgentState.skip_step
  rw [if_pos hin, updateAt_getD_eq _ _ _ _ hin]

/-- `update_url` leaves everything relevant unchanged. -/
theorem update_url_frame (st : AgentState) (url : String) :
    (st.update_url url).status = st.status ∧
    (st.update_url url).total_steps = st.total_steps ∧
    (st.update_url url).steps = st.steps := ⟨rfl, rfl, rfl⟩

/-- `finish` only changes `status` and `end_time`. -/
theorem finish_frame (st : AgentState) (ok : Bool) (now : String) :
    (st.finish ok now).steps = st.steps ∧
    (st.finish ok now).total_steps = st.total_steps ∧
    (st.finish ok now).status = (if ok then "success" else "failed") ∧
    (st.finish ok now).get_progress = st.get_progress := ⟨rfl, rfl, rfl, rfl⟩

/-- Frame facts for the whole retry loop of one step: the status string,
`total_steps`, the number of step records, and every record other than the
one at `index` are untouched. -/
theorem executeAttempts_frame (env : ExecEnv) (i maxR : Nat) :
    ∀ (remaining attempt : Nat) (st : AgentState),
      (BrowserAgent.executeAttempts env i maxR remaining attempt st).1.status = st.status ∧
      (BrowserAgent.executeAttempts env i maxR remaining attempt st).1.total_steps
        = st.total_steps ∧
      (BrowserAgent.executeAttempts env i maxR remaining attempt st).1.steps.length
        = st.steps.length ∧
      (∀ j, j ≠ i →
        (BrowserAgent.executeAttempts env i maxR remaining attempt st).1.steps.getD j dRec
          = st.steps.getD j dRec) := by
  intro remaining
  induction remaining with
  | zero => intro attempt st; exact ⟨rfl, rfl, rfl, fun _ _ => rfl⟩
  | succ n ih =>
    intro attempt st
    simp only [BrowserAgent.executeAttempts]
    set st1 := if attempt > 0 then st.retry_step i else st with hst1
    have h1 : st1.status = st.status ∧ st1.total_steps = st.total_steps ∧
        st1.steps.length = st.steps.length ∧
        (∀ j, j ≠ i → st1.steps.getD j dRec = st.steps.getD j dRec) := by
      rw [hst1]; split
      · exact retry_step_frame st i
      · exact ⟨rfl, rfl, rfl, fun _ _ => rfl⟩
    set st2 := st1.start_step i env.timestamp with hst2
    have h2 := start_step_frame st1 i env.timestamp
    split
    · -- success branch
      set st3 := st2.complete_step i true "" (env.result i attempt).data
        (env.result i attempt).screenshot_path (env.result i attempt).duration_ms with hst3
      have h3 := complete_step_frame st2 i true "" (env.result i attempt).data
        (env.result i attempt).screenshot_path (env.result i attempt).duration_ms
      split
      · exact ⟨h3.1.trans (h2.1.trans h1.1), h3.2.1.trans (h2.2.1.trans h1.2.1),
          h3.2.2.1.trans (h2.2.2.1.trans h1.2.2.1),
          fun j hj => (h3.2.2.2 j hj).trans ((h2.2.2.2 j hj).trans (h1.2.2.2 j hj))⟩
      · exact ⟨h3.1.trans (h2.1.trans h1.1), h3.2.1.trans (h2.2.1.trans h1.2.1),
          h3.2.2.1.trans (h2.2.2.1.trans h1.2.2.1),
          fun j hj => (h3.2.2.2 j hj).trans ((h2.2.2.2 j hj).trans (h1.2.2.2 j hj))⟩
    · -- failure branch
      set st3 := if attempt == maxR then
          st2.complete_step i false (env.result i attempt).error [] ""
            (env.result i attempt).duration_ms
        else st2 with hst3
      have h3 : st3.status = st2.status ∧ st3.total_steps = st2.total_steps ∧
          st3.steps.length = st2.steps.length ∧
          (∀ j, j ≠ i → st3.steps.getD j dRec = st2.steps.getD j dRec) := by
        rw [hst3]; split
        · exact complete_step_frame st2 i false (env.result i attempt).error [] ""
            (env.result i attempt).duration_ms
        · exact ⟨rfl, rfl, rfl, fun _ _ => rfl⟩
      have hrec := ih (attempt + 1) st3
      exact ⟨hrec.1.trans (h3.1.trans (h2.1.trans h1.1)),
        hrec.2.1.trans (h3.2.1.trans (h2.2.1.trans h1.2.1)),
        hrec.2.2.1.trans (h3.2.2.1.trans (h2.2.2.1.trans h1.2.2.1)),
        fun j hj => (hrec.2.2.2 j hj).trans
          ((h3.2.2.2 j hj).trans ((h2.2.2.2 j hj).trans (h1.2.2.2 j hj)))⟩

/-- The retry loop reports success precisely when some attempt in its
window succeeds. -/
theorem executeAttempts_ok (env : ExecEnv) (i maxR : Nat) :
    ∀ (remaining attempt : Nat) (st : AgentState),
      (BrowserAgent.executeAttempts env i maxR remaining attempt st).2.1
        = (List.range remaining).any (fun k => (env.result i (attempt + k)).success) := by
  intro remaining
  induction remaining with
  | zero => intro attempt st; rfl
  | succ n ih =>
    intro attempt st
    simp only [BrowserAgent.executeAttempts]
    split
    · rename_i hres
      rw [List.range_succ_eq_map]
      simp [hres]
    · rename_i hres
      have hres2 : (env.result i attempt).success = false := by
        simpa using hres
      rw [List.range_succ_eq_map]
      simp only [List.any_cons, Nat.add_zero, hres2, Bool.false_or, List.any_map]
      rw [ih (attempt + 1) _]
      congr 1
      funext k
      simp only [Function.comp_apply]
      congr 2
      omega

/-- At the end of the retry loop (entered with the full window), the step
record at `index` carries SUCCESS when the loop succeeded and FAILED when
the loop exhausted all attempts. -/
theorem executeAttempts_status_at (env : ExecEnv) (i maxR : Nat) :
    ∀ (remaining attempt : Nat) (st : AgentState),
      attempt + remaining = maxR + 1 → 0 < remaining → i < st.steps.length →
      (((BrowserAgent.executeAttempts env i maxR remaining attempt st).2.1 = true →
        ((BrowserAgent.executeAttempts env i maxR remaining attempt st).1.steps.getD i
          dRec).status = StepStatus.success) ∧
       ((BrowserAgent.executeAttempts env i maxR remaining attempt st).2.1 = false →
        ((BrowserAgent.executeAttempts env i maxR remaining attempt st).1.steps.getD i
          dRec).status = StepStatus.failed)) := by
  intro remaining
  induction remaining with
  | zero => intro attempt st _ h0 _; omega
  | succ n ih =>
    intro attempt st hsum _ hin
    simp only [BrowserAgent.executeAttempts]
    set st1 := if attempt > 0 then st.retry_step i else st with hst1
    have h1len : st1.steps.length = st.steps.length := by
      rw [hst1]; split
      · exact (retry_step_frame st i).2.2.1
      · rfl
    set st2 := st1.start_step i env.timestamp with hst2
    have h2len : st2.steps.length = st.steps.length :=
      (start_step_frame st1 i env.timestamp).2.2.1.trans h1len
    split
    · constructor
      · intro _
        split
        · exact complete_step_at st2 i true "" _ _ _ (by omega)
        · exact complete_step_at st2 i true "" _ _ _ (by omega)
      · intro hcontra
        simp at hcontra
    · rename_i hres
      by_cases hlast : (attempt == maxR) = true
      · have heq : attempt = maxR := by simpa using hlast
        have hn0 : n = 0 := by omega
        subst hn0
        rw [if_pos hlast]
        constructor
        · intro hcontra
          simp [BrowserAgent.executeAttempts] at hcontra
        · intro _
          simp only [BrowserAgent.executeAttempts]
          have := complete_step_at st2 i false (env.result i attempt).error [] ""
            (env.result i attempt).duration_ms (by omega)
          simpa using this
      · have hne : attempt ≠ maxR := by
          intro h; exact hlast (by simp [h])
        have hn : 0 < n := by omega
        rw [if_neg hlast]
        have := ih (attempt + 1) st2 (by omega) hn (by omega)
        exact this

/-- At the entry point of `_execute_step_with_retry`, the returned flag is
exactly `succeedsWithin`. -/
theorem executeStepWithRetry_ok (env : ExecEnv) (i : Nat) (st : AgentState) :
    (BrowserAgent.executeStepWithRetry env i st).2.1 = succeedsWithin env i := by
  rw [BrowserAgent.executeStepWithRetry, executeAttempts_ok]
  unfold succeedsWithin
  congr 1
  funext k
  simp

/-- Only `"navigate"` is critical. -/
theorem isCriticalStep_iff (a : String) :
    BrowserAgent.isCriticalStep a = true ↔ a = "navigate" := by
  simp [BrowserAgent.isCriticalStep, BrowserAgent.criticalActions]

theorem mkRecords_length : ∀ (plan : List (String × Params)) (i : Nat),
    (AgentState.mkRecords i plan).length = plan.length := by
  intro plan
  induction plan with
  | nil => intro i; rfl
  | cons hd rest ih =>
    intro i
    obtain ⟨a, p⟩ := hd
    simp [AgentState.mkRecords, ih]

theorem mkRecords_getD_status : ∀ (plan : List (String × Params)) (i j : Nat),
    (((AgentState.mkRecords i plan).getD j dRec).status) = StepStatus.pending := by
  intro plan
  induction plan with
  | nil => intro i j; cases j <;> rfl
  | cons hd rest ih =>
    intro i j
    obtain ⟨a, p⟩ := hd
    cases j with
    | zero => rfl
    | succ m => simpa [AgentState.mkRecords] using ih (i + 1) m

/-- Unfolding of `BrowserAgent.execute` on a non-empty plan. -/
theorem execute_unfold (env : ExecEnv) (goal : String) (plan : ActionPlan)
    (hne : plan.steps.isEmpty = false) :
    BrowserAgent.execute env goal plan =
      (let st := (AgentState.reset {} goal env.timestamp).set_plan
          (plan.steps.map (fun s => (s.action, s.params)))
       let st := BrowserAgent.executeSteps env plan.steps 0 st
       let progress := st.get_progress
       let success := (progress.failed == 0)
         || decide (4 * progress.total ≤ 5 * progress.completed)
       let st := st.finish success env.timestamp
       (st, { success := success
              goal := goal
              message := BrowserAgent.resultMessage st
              extracted_data := st.extracted_data
              screenshots := st.screenshots
              steps_completed := progress.completed
              steps_total := progress.total
              errors := st.errors
              final_url := env.finalUrl })) := by
  unfold BrowserAgent.execute
  rw [hne]
  simp

/-- After the step loop, no record is FAILED, provided every navigate step
has a succeeding attempt within the retry budget.  (Non-critical failures
are overwritten to SKIPPED by the orchestrator.) -/
theorem executeSteps_not_failed (env : ExecEnv) :
    ∀ (rest : List ActionStep) (i : Nat) (st : AgentState),
      st.steps.length = i + rest.length →
      (∀ k, k < rest.length → (rest.getD k dummyStep).action = "navigate" →
        succeedsWithin env (i + k) = true) →
      (∀ j, ((st.steps.getD j dRec).status ≠ StepStatus.failed)) →
      (∀ j, (((BrowserAgent.executeSteps env rest i st).steps.getD j dRec).status
        ≠ StepStatus.failed)) := by
  intro rest
  induction rest with
  | nil => intro i st _ _ hInv; exact hInv
  | cons step rest ih =>
    intro i st hlen hnav hInv
    have hin : i < st.steps.length := by
      rw [hlen]; simp only [List.length_cons]; omega
    simp only [BrowserAgent.executeSteps]
    have hok := executeStepWithRetry_ok env i st
    have hframe : (BrowserAgent.executeStepWithRetry env i st).1.status = st.status ∧
        (BrowserAgent.executeStepWithRetry env i st).1.total_steps = st.total_steps ∧
        (BrowserAgent.executeStepWithRetry env i st).1.steps.length = st.steps.length ∧
        (∀ j, j ≠ i →
          (BrowserAgent.executeStepWithRetry env i st).1.steps.getD j dRec
            = st.steps.getD j dRec) :=
      executeAttempts_frame env i BrowserAgent.maxRetries (BrowserAgent.maxRetries + 1) 0 st
    have hstat :
        ((BrowserAgent.executeStepWithRetry env i st).2.1 = true →
          ((BrowserAgent.executeStepWithRetry env i st).1.steps.getD i dRec).status
            = StepStatus.success) ∧
        ((BrowserAgent.executeStepWithRetry env i st).2.1 = false →
          ((BrowserAgent.executeStepWithRetry env i st).1.steps.getD i dRec).status
            = StepStatus.failed) :=
      executeAttempts_status_at env i BrowserAgent.maxRetries (BrowserAgent.maxRetries + 1) 0 st
        rfl (by omega) hin
    split
    · rename_i hoktrue
      apply ih (i + 1) _
      · rw [hframe.2.2.1, hlen]; simp only [List.length_cons]; omega
      · intro k hk hnavk
        have := hnav (k + 1) (by simp only [List.length_cons]; omega) (by simpa using hnavk)
        have harith : i + (k + 1) = (i + 1) + k := by omega
        rwa [harith] at this
      · intro j
        by_cases hj : j = i
        · subst hj
          rw [hstat.1 hoktrue]
          decide
        · rw [hframe.2.2.2 j hj]
          exact hInv j
    · rename_i hokfalse
      split
      · rename_i hcrit
        exfalso
        have hnavstep : step.action = "navigate" := (isCriticalStep_iff step.action).mp hcrit
        have := hnav 0 (by simp) (by simpa using hnavstep)
        rw [Nat.add_zero] at this
        rw [this] at hok
        exact hokfalse hok
      · rename_i hncrit
        apply ih (i + 1) _
        · rw [(skip_step_frame _ i "Failed after retries").2.2.1, hframe.2.2.1, hlen]
          simp only [List.length_cons]; omega
        · intro k hk hnavk
          have := hnav (k + 1) (by simp only [List.length_cons]; omega) (by simpa using hnavk)
          have harith : i + (k + 1) = (i + 1) + k := by omega
          rwa [harith] at this
        · intro j
          by_cases hj : j = i
          · subst hj
            rw [skip_step_at _ j "Failed after retries" (by rw [hframe.2.2.1]; exact hin)]
            decide
          · rw [(skip_step_frame _ i "Failed after retries").2.2.2 j hj,
              hframe.2.2.2 j hj]
            exact hInv j

/-! ## Claim C5: non-critical failures never defeat the success flag -/

/-- **C5** (confirmed).  For every execution in which no navigate step
exhausts its retries, `execute()` returns `success = True`, no matter how
many non-critical steps failed after retries: each such step's FAILED
status is overwritten to SKIPPED, so the failed count in `get_progress()`
is 0 and the `failed == 0` clause of the success rule holds; the 80%
threshold can only matter after a critical abort. -/
theorem noncritical_failures_still_succeed (env : ExecEnv) (goal : String)
    (plan : ActionPlan) (hne : plan.steps ≠ [])
    (hnav : ∀ k, k < plan.steps.length →
      (plan.steps.getD k dummyStep).action = "navigate" → succeedsWithin env k = true) :
    (BrowserAgent.execute env goal plan).2.success = true := by
  have hne2 : plan.steps.isEmpty = false := by simpa [List.isEmpty_iff] using hne
  rw [execute_unfold env goal plan hne2]
  simp only []
  set st1 := (AgentState.reset {} goal env.timestamp).set_plan
      (plan.steps.map (fun s => (s.action, s.params))) with hst1
  set st2 := BrowserAgent.executeSteps env plan.steps 0 st1 with hst2
  have hlen1 : st1.steps.length = 0 + plan.steps.length := by
    rw [hst1]
    simp [AgentState.set_plan, AgentState.reset, mkRecords_length]
  have hInv1 : ∀ j, ((st1.steps.getD j dRec).status ≠ StepStatus.failed) := by
    intro j
    rw [hst1]
    simp only [AgentState.set_plan, AgentState.reset, List.nil_append]
    rw [mkRecords_getD_status]
    decide
  have hnf := executeSteps_not_failed env plan.steps 0 st1 hlen1
    (fun k hk hs => by rw [Nat.zero_add]; exact hnav k hk hs) hInv1
  have hcount : st2.get_progress.failed = 0 := by
    simp only [AgentState.get_progress]
    rw [List.countP_eq_zero]
    intro r hr
    obtain ⟨n, hlt, hn⟩ := List.mem_iff_getElem.mp hr
    have hfact := hnf n
    rw [← hst2, List.getD_eq_getElem _ _ hlt, hn] at hfact
    simp [hfact]
  rw [hcount]
  simp

def envOK : ExecEnv := { result := fun _ _ => { success := true } }

def planOK : ActionPlan :=
  { goal := "g", steps := [{ action := "navigate" }, { action := "wait" }] }

/-- **C5, witness.** -/
theorem noncritical_failures_still_succeed_witness :
    (BrowserAgent.execute envOK "g" planOK).2.success = true :=
  noncritical_failures_still_succeed envOK "g" planOK (by decide) (by decide)

/-! ## Claim C1: a critical abort and the final status -/

theorem take_getD {α : Type} (d : α) :
    ∀ (l : List α) (n k : Nat), k < n → (l.take n).getD k d = l.getD k d := by
  intro l
  induction l with
  | nil => intro n k _; simp
  | cons x xs ih =>
    intro n k hk
    cases n with
    | zero => omega
    | succ m =>
      cases k with
      | zero => simp
      | succ k2 => simpa using ih m k2 (by omega)

/-- Processing a prefix in which no critical step exhausts its retries
neither breaks the loop nor touches records outside the prefix window. -/
theorem executeSteps_append (env : ExecEnv) :
    ∀ (pre rest2 : List ActionStep) (i : Nat) (st : AgentState),
      (∀ k, k < pre.length → ¬((pre.getD k dummyStep).action = "navigate"
          ∧ succeedsWithin env (i + k) = false)) →
      i + pre.length ≤ st.steps.length →
      ∃ st2, BrowserAgent.executeSteps env (pre ++ rest2) i st
          = BrowserAgent.executeSteps env rest2 (i + pre.length) st2 ∧
        st2.status = st.status ∧ st2.total_steps = st.total_steps ∧
        st2.steps.length = st.steps.length ∧
        (∀ j, (j < i ∨ i + pre.length ≤ j) →
          st2.steps.getD j dRec = st.steps.getD j dRec) := by
  intro pre
  induction pre with
  | nil =>
    intro rest2 i st _ _
    exact ⟨st, by simp, rfl, rfl, rfl, fun _ _ => rfl⟩
  | cons step pre ih =>
    intro rest2 i st hpre hbound
    have hin : i < st.steps.length := by simp only [List.length_cons] at hbound; omega
    rw [List.cons_append]
    simp only [BrowserAgent.executeSteps]
    have hok := executeStepWithRetry_ok env i st
    have hframe : (BrowserAgent.executeStepWithRetry env i st).1.status = st.status ∧
        (BrowserAgent.executeStepWithRetry env i st).1.total_steps = st.total_steps ∧
        (BrowserAgent.executeStepWithRetry env i st).1.steps.length = st.steps.length ∧
        (∀ j, j ≠ i →
          (BrowserAgent.executeStepWithRetry env i st).1.steps.getD j dRec
            = st.steps.getD j dRec) :=
      executeAttempts_frame env i BrowserAgent.maxRetries (BrowserAgent.maxRetries + 1) 0 st
    have hk0 := hpre 0 (by simp)
    split
    · rename_i hoktrue
      have hpre2 : ∀ k, k < pre.length → ¬((pre.getD k dummyStep).action = "navigate"
          ∧ succeedsWithin env ((i + 1) + k) = false) := by
        intro k hk
        rintro ⟨ha, hb⟩
        refine hpre (k + 1) (by simp only [List.length_cons]; omega) ⟨by simpa using ha, ?_⟩
        rw [show i + (k + 1) = (i + 1) + k from by omega]
        exact hb
      obtain ⟨st2, heq, hs, ht, hl, hj⟩ :=
        ih rest2 (i + 1) (BrowserAgent.executeStepWithRetry env i st).1 hpre2
          (by rw [hframe.2.2.1]; simp only [List.length_cons] at hbound; omega)
      refine ⟨st2, ?_, hs.trans hframe.1, ht.trans hframe.2.1, hl.trans hframe.2.2.1, ?_⟩
      · rw [heq, show (i + 1) + pre.length = i + (step :: pre).length from by
          simp only [List.length_cons]; omega]
      · intro j hjcond
        have hcond2 : j < i + 1 ∨ (i + 1) + pre.length ≤ j := by
          simp only [List.length_cons] at hjcond
          omega
        have hne : j ≠ i := by
          simp only [List.length_cons] at hjcond
          omega
        rw [hj j hcond2, hframe.2.2.2 j hne]
    · rename_i hokfalse
      have hokfalse2 : succeedsWithin env i = false := by
        rw [← hok]
        simpa using hokfalse
      split
      · rename_i hcrit
        exfalso
        exact hk0 ⟨by simpa using (isCriticalStep_iff step.action).mp hcrit,
          by rw [Nat.add_zero]; exact hokfalse2⟩
      · rename_i hncrit
        have hskipframe := skip_step_frame (BrowserAgent.executeStepWithRetry env i st).1 i
          "Failed after retries"
        have hpre2 : ∀ k, k < pre.length → ¬((pre.getD k dummyStep).action = "navigate"
            ∧ succeedsWithin env ((i + 1) + k) = false) := by
          intro k hk
          rintro ⟨ha, hb⟩
          refine hpre (k + 1) (by simp only [List.length_cons]; omega) ⟨by simpa using ha, ?_⟩
          rw [show i + (k + 1) = (i + 1) + k from by omega]
          exact hb
        obtain ⟨st2, heq, hs, ht, hl, hj⟩ :=
          ih rest2 (i + 1)
            (((BrowserAgent.executeStepWithRetry env i st).1).skip_step i "Failed after retries")
            hpre2
            (by rw [hskipframe.2.2.1, hframe.2.2.1]
                simp only [List.length_cons] at hbound; omega)
        refine ⟨st2, ?_, hs.trans (hskipframe.1.trans hframe.1),
          ht.trans (hskipframe.2.1.trans hframe.2.1),
          hl.trans (hskipframe.2.2.1.trans hframe.2.2.1), ?_⟩
        · rw [heq, show (i + 1) + pre.length = i + (step :: pre).length from by
            simp only [List.length_cons]; omega]
        · intro j hjcond
          have hcond2 : j < i + 1 ∨ (i + 1) + pre.length ≤ j := by
            simp only [List.length_cons] at hjcond
            omega
          have hne : j ≠ i := by
            simp only [List.length_cons] at hjcond
            omega
          rw [hj j hcond2, hskipframe.2.2.2 j hne, hframe.2.2.2 j hne]

/-- **C1** (corrected).  When the first critical failure happens at step
`i₀` (a navigate step exhausts all retry attempts, and no earlier navigate
step did), no later step of the plan is executed — every record after `i₀`
stays PENDING.  The abort marks the `AgentState` failed, but the
finalization step of `execute()` recomputes overall success from progress
and overwrites the status: the terminal status is `"failed"` precisely
when fewer than 80% of the steps completed (`5·completed < 4·total`);
with at least 80% completed before the critical failure it ends up
`"success"`. -/
theorem critical_abort_behavior (env : ExecEnv) (goal : String) (plan : ActionPlan)
    (i₀ : Nat) (hlt : i₀ < plan.steps.length)
    (hnav : (plan.steps.getD i₀ dummyStep).action = "navigate")
    (hfail : succeedsWithin env i₀ = false)
    (hreach : ∀ k, k < i₀ → ¬((plan.steps.getD k dummyStep).action = "navigate"
        ∧ succeedsWithin env k = false)) :
    (∀ j, i₀ < j →
      (((BrowserAgent.execute env goal plan).1.steps.getD j dRec).status
        = StepStatus.pending)) ∧
    ((BrowserAgent.execute env goal plan).1.status = "failed"
      ↔ 5 * (BrowserAgent.execute env goal plan).1.get_progress.completed
          < 4 * (BrowserAgent.execute env goal plan).1.total_steps) := by
  have hne2 : plan.steps.isEmpty = false := by
    cases hps : plan.steps with
    | nil => rw [hps] at hlt; simp at hlt
    | cons a l => simp
  rw [execute_unfold env goal plan hne2]
  simp only []
  set st1 := (AgentState.reset {} goal env.timestamp).set_plan
      (plan.steps.map (fun s => (s.action, s.params))) with hst1
  have hlen1 : st1.steps.length = plan.steps.length := by
    rw [hst1]
    simp [AgentState.set_plan, AgentState.reset, mkRecords_length]
  have hdecomp : plan.steps.take i₀
      ++ (plan.steps.getD i₀ dummyStep :: plan.steps.drop (i₀ + 1)) = plan.steps := by
    rw [List.getD_eq_getElem _ _ hlt, ← List.drop_eq_getElem_cons hlt, List.take_append_drop]
  have hpre : ∀ k, k < (plan.steps.take i₀).length →
      ¬(((plan.steps.take i₀).getD k dummyStep).action = "navigate"
        ∧ succeedsWithin env (0 + k) = false) := by
    intro k hk
    have hki : k < i₀ := by
      simp only [List.length_take, lt_min_iff] at hk
      exact hk.1
    rw [take_getD dummyStep _ i₀ k hki, Nat.zero_add]
    exact hreach k hki
  obtain ⟨st2, heq, hs2, ht2, hl2, hj2⟩ :=
    executeSteps_append env (plan.steps.take i₀)
      (plan.steps.getD i₀ dummyStep :: plan.steps.drop (i₀ + 1)) 0 st1 hpre
      (by rw [hlen1]; simp only [Nat.zero_add, List.length_take]; omega)
  have hpre_len : (plan.steps.take i₀).length = i₀ := by
    simp only [List.length_take]
    omega
  have hloop : BrowserAgent.executeSteps env plan.steps 0 st1
      = BrowserAgent.executeSteps env
          (plan.steps.getD i₀ dummyStep :: plan.steps.drop (i₀ + 1)) i₀ st2 := by
    conv_lhs => rw [← hdecomp]
    rw [heq, Nat.zero_add, hpre_len]
  have hin2 : i₀ < st2.steps.length := by rw [hl2, hlen1]; exact hlt
  have hok2 := executeStepWithRetry_ok env i₀ st2
  have hframe2 : (BrowserAgent.executeStepWithRetry env i₀ st2).1.status = st2.status ∧
      (BrowserAgent.executeStepWithRetry env i₀ st2).1.total_steps = st2.total_steps ∧
      (BrowserAgent.executeStepWithRetry env i₀ st2).1.steps.length = st2.steps.length ∧
      (∀ j, j ≠ i₀ →
        (BrowserAgent.executeStepWithRetry env i₀ st2).1.steps.getD j dRec
          = st2.steps.getD j dRec) :=
    executeAttempts_frame env i₀ BrowserAgent.maxRetries (BrowserAgent.maxRetries + 1) 0 st2
  have hstat2 :
      ((BrowserAgent.executeStepWithRetry env i₀ st2).2.1 = true →
        ((BrowserAgent.executeStepWithRetry env i₀ st2).1.steps.getD i₀ dRec).status
          = StepStatus.success) ∧
      ((BrowserAgent.executeStepWithRetry env i₀ st2).2.1 = false →
        ((BrowserAgent.executeStepWithRetry env i₀ st2).1.steps.getD i₀ dRec).status
          = StepStatus.failed) :=
    executeAttempts_status_at env i₀ BrowserAgent.maxRetries (BrowserAgent.maxRetries + 1) 0 st2
      rfl (by omega) hin2
  have hcond : (BrowserAgent.executeStepWithRetry env i₀ st2).2.1 = false := by
    rw [hok2]; exact hfail
  have hcrit : BrowserAgent.isCriticalStep (plan.steps.getD i₀ dummyStep).action = true :=
    (isCriticalStep_iff _).mpr hnav
  have habort : BrowserAgent.executeSteps env
      (plan.steps.getD i₀ dummyStep :: plan.steps.drop (i₀ + 1)) i₀ st2
      = ((BrowserAgent.executeStepWithRetry env i₀ st2).1).finish false env.timestamp := by
    simp only [BrowserAgent.executeSteps, hcond, hcrit, Bool.false_eq_true, if_false, if_true]
  rw [hloop, habort]
  set stAbort := ((BrowserAgent.executeStepWithRetry env i₀ st2).1).finish false env.timestamp
    with habortdef
  have hAbortSteps : stAbort.steps = (BrowserAgent.executeStepWithRetry env i₀ st2).1.steps :=
    rfl
  have hAbortLen : stAbort.steps.length = st2.steps.length := by
    rw [hAbortSteps]; exact hframe2.2.2.1
  have hfailedrec : (stAbort.steps.getD i₀ dRec).status = StepStatus.failed := by
    rw [hAbortSteps]
    exact hstat2.2 hcond
  have hfailpos : 0 < stAbort.get_progress.failed := by
    simp only [AgentState.get_progress]
    rw [List.countP_pos_iff]
    refine ⟨stAbort.steps.getD i₀ dRec, ?_, ?_⟩
    · rw [List.getD_eq_getElem _ _ (by rw [hAbortLen]; exact hin2)]
      exact List.getElem_mem _
    · rw [hfailedrec]
      decide
  have hbeq : (stAbort.get_progress.failed == 0) = false := by
    simp only [beq_eq_false_iff_ne, ne_eq]
    omega
  constructor
  · intro j hj
    have hne_i : j ≠ i₀ := by omega
    rw [(finish_frame stAbort _ env.timestamp).1, hAbortSteps,
      hframe2.2.2.2 j hne_i, hj2 j (Or.inr (by rw [Nat.zero_add, hpre_len]; omega)), hst1]
    simp only [AgentState.set_plan, AgentState.reset, List.nil_append]
    exact mkRecords_getD_status _ 0 j
  · rw [(finish_frame stAbort _ env.timestamp).2.2.1,
      (finish_frame stAbort _ env.timestamp).2.2.2,
      (finish_frame stAbort _ env.timestamp).2.1,
      hbeq]
    simp only [Bool.false_or]
    by_cases hc : 4 * stAbort.get_progress.total ≤ 5 * stAbort.get_progress.completed
    · rw [if_pos (by simp [hc])]
      constructor
      · intro habs
        exact absurd habs (by decide)
      · intro habs
        have : stAbort.get_progress.total = stAbort.total_steps := rfl
        omega
    · rw [if_neg (by simp [hc])]
      constructor
      · intro _
        have : stAbort.get_progress.total = stAbort.total_steps := rfl
        omega
      · intro _
        rfl

/-- A five-step plan whose last step is the only navigate step. -/
def planC1 : ActionPlan :=
  { goal := "g"
    steps := [{ action := "wait" }, { action := "wait" }, { action := "wait" },
              { action := "wait" }, { action := "navigate" }] }

/-- An environment in which the first four steps succeed immediately and
the navigate step fails on every attempt. -/
def envC1 : ExecEnv :=
  { result := fun i _ => if i < 4 then { success := true } else { success := false } }

/-- **C1, counterexample.**  In `planC1` under `envC1` the navigate step
(step 5 of 5) exhausts all retry attempts, so the claim requires terminal
status `"failed"`; but 4 of 5 steps completed (80%), so the finalizer
overwrites the status and `execute` ends with status `"success"` and
`success = true`. -/
theorem critical_abort_status_counterexample :
    (planC1.steps.getD 4 dummyStep).action = "navigate" ∧
    succeedsWithin envC1 4 = false ∧
    (BrowserAgent.execute envC1 "g" planC1).1.status = "success" ∧
    (BrowserAgent.execute envC1 "g" planC1).2.success = true := by
  refine ⟨by decide, by decide, by decide, by decide⟩

/-- **C1, witness.** -/
theorem critical_abort_behavior_witness :
    (BrowserAgent.execute envC1 "g" planC1).1.status = "failed"
      ↔ 5 * (BrowserAgent.execute envC1 "g" planC1).1.get_progress.completed
          < 4 * (BrowserAgent.execute envC1 "g" planC1).1.total_steps :=
  (critical_abort_behavior envC1 "g" planC1 4 (by decide) (by decide) (by decide)
    (by decide)).2

end Jarvix
